import Mathlib

/-!
# Verification of the sync_files media synchronization engine

Shallow embedding of the synchronization engine found in
`sync_manager.py`, `file_utils.py`, `database_manager.py` and
`report_manager.py`, together with theorems settling the frozen claims
about it.

Modelling conventions:
* paths and content hashes are `String`s;
* the Python `dict` `remote_file_hashes` is an association list with
  insert-or-overwrite semantics (`dictInsert`), preserving insertion
  order as CPython dicts do;
* the SQLite database is a record of lists of rows, appended in order;
  `AUTOINCREMENT` ids start at 1;
* the SSH transport is an oracle (`Env`): per-path copy/mkdir outcomes,
  the list of remote media files found by the destination scan, and the
  set of files initially present on the remote side; every remote
  side-effecting operation performed is appended to an `ops` trace.
-/

namespace SyncFiles

/-! ## Association-list model of a CPython dict (insertion ordered) -/

/-- `d[k] = v`: overwrite in place if the key is present, else append. -/
def dictInsert (d : List (String × String)) (k v : String) :
    List (String × String) :=
  match d with
  | [] => [(k, v)]
  | (k', v') :: rest =>
      if k' = k then (k, v) :: rest else (k', v') :: dictInsert rest k v

/-- `d.get(k)`: first (and only) binding of `k`. -/
def dictLookup (d : List (String × String)) (k : String) : Option String :=
  match d with
  | [] => none
  | (k', v') :: rest => if k' = k then some v' else dictLookup rest k

/-- `d.values()` in insertion order. -/
def dictValues (d : List (String × String)) : List String :=
  d.map Prod.snd

/-- `k in d` (membership tests keys). -/
def dictContains (d : List (String × String)) (k : String) : Bool :=
  (dictLookup d k).isSome

/-! ## `report_manager.MediaSyncReport` -/

/-- Run counters accumulated by `MediaSyncReport.__init__`. -/
structure MediaSyncReport where
  files_transferred : Nat := 0
  duplicates_found : Nat := 0
  duplicates_renamed : Nat := 0
  errors : List String := []
  skipped_files : Nat := 0
  already_processed : Nat := 0
  total_size_transferred : Nat := 0
deriving Repr, DecidableEq

/-- `MediaSyncReport.add_transferred`. -/
def MediaSyncReport.add_transferred (r : MediaSyncReport) (file_size : Nat) :
    MediaSyncReport :=
  { r with files_transferred := r.files_transferred + 1,
           total_size_transferred := r.total_size_transferred + file_size }

/-- `MediaSyncReport.add_duplicate`. -/
def MediaSyncReport.add_duplicate (r : MediaSyncReport) : MediaSyncReport :=
  { r with duplicates_found := r.duplicates_found + 1 }

/-- `MediaSyncReport.add_renamed_duplicate`. -/
def MediaSyncReport.add_renamed_duplicate (r : MediaSyncReport) :
    MediaSyncReport :=
  { r with duplicates_renamed := r.duplicates_renamed + 1 }

/-- `MediaSyncReport.add_error`. -/
def MediaSyncReport.add_error (r : MediaSyncReport) (msg : String) :
    MediaSyncReport :=
  { r with errors := r.errors ++ [msg] }

/-- `MediaSyncReport.add_skipped`. -/
def MediaSyncReport.add_skipped (r : MediaSyncReport) : MediaSyncReport :=
  { r with skipped_files := r.skipped_files + 1 }

/-- `MediaSyncReport.add_already_processed`. -/
def MediaSyncReport.add_already_processed (r : MediaSyncReport) :
    MediaSyncReport :=
  { r with already_processed := r.already_processed + 1 }

/-! ## `file_utils.DuplicateChecker` -/

/-- In-memory duplicate registry: `processed_files` is the set of local
paths already handled by earlier sessions, `remote_file_hashes` is the
Python dict mapping a content hash to a remote path. -/
structure DuplicateChecker where
  processed_files : List String := []
  remote_file_hashes : List (String × String) := []
deriving Repr, DecidableEq

/-- `DuplicateChecker.is_file_already_processed`.  Faithful to the source:
the fast path tests `file_path` against `processed_files`; the hash path
iterates over `self.remote_file_hashes.values()` — the dict's *values*
(remote paths) — comparing each to `file_hash`.  `none` and the empty
string model Python falsy hashes. -/
def DuplicateChecker.is_file_already_processed (dc : DuplicateChecker)
    (file_path : String) (file_hash : Option String := none) : Bool :=
  if dc.processed_files.contains file_path then true
  else
    match file_hash with
    | some h =>
        if h ≠ "" then (dictValues dc.remote_file_hashes).contains h
        else false
    | none => false

/-- `DuplicateChecker.is_duplicate_in_remote`: dict key membership. -/
def DuplicateChecker.is_duplicate_in_remote (dc : DuplicateChecker)
    (file_hash : String) : Bool :=
  dictContains dc.remote_file_hashes file_hash

/-- `DuplicateChecker.add_remote_file_hash`:
`self.remote_file_hashes[file_hash] = file_path`. -/
def DuplicateChecker.add_remote_file_hash (dc : DuplicateChecker)
    (file_hash file_path : String) : DuplicateChecker :=
  { dc with remote_file_hashes :=
      dictInsert dc.remote_file_hashes file_hash file_path }

/-- `DuplicateChecker.get_existing_duplicate_path`. -/
def DuplicateChecker.get_existing_duplicate_path (dc : DuplicateChecker)
    (file_hash : String) : Option String :=
  dictLookup dc.remote_file_hashes file_hash

/-! ## POSIX-path helpers (model of the `pathlib` operations used)

Paths are handled through their character lists so that every operation
is an ordinary structural recursion. -/

/-- Split a character list at the *last* occurrence of `c`:
`splitLast c cs = some (pre, post)` when `cs = pre ++ c :: post` with
`post` free of `c`; `none` when `c` does not occur. -/
def splitLast (c : Char) : List Char → Option (List Char × List Char)
  | [] => none
  | x :: xs =>
      match splitLast c xs with
      | some (pre, post) => some (x :: pre, post)
      | none => if x = c then some ([], xs) else none

/-- `Path(s).name`: the part after the last `/` (the whole string when
there is no `/`). -/
def pathName (s : String) : String :=
  match splitLast '/' s.data with
  | some pr => ⟨pr.2⟩
  | none => s

/-- `Path(s).parent / newname` for normalized POSIX paths: replace the
part after the last `/` by `newname` (a path without `/` keeps only
`newname`, matching `Path('.') / newname`). -/
def pathParentJoin (s newname : String) : String :=
  match splitLast '/' s.data with
  | some pr => (⟨pr.1⟩ : String) ++ "/" ++ newname
  | none => newname

/-- `Path(s).parent` as a string (files in this system always live under
a destination root; the degenerate cases map to `"/"` and `"."` as in
`pathlib`). -/
def pathParent (s : String) : String :=
  match splitLast '/' s.data with
  | some pr => if pr.1 = [] then "/" else ⟨pr.1⟩
  | none => "."

/-- `(Path(name).stem, Path(name).suffix)` for a bare file name: the
suffix starts at the last dot provided that dot is neither the first nor
the last character, else it is empty. -/
def pathStemSuffix (name : String) : String × String :=
  match splitLast '.' name.data with
  | some pr =>
      if pr.1 ≠ [] ∧ pr.2 ≠ [] then (⟨pr.1⟩, ⟨'.' :: pr.2⟩)
      else (name, "")
  | none => (name, "")

/-! ## `FileUtils.generate_duplicate_name` -/

/-- The name tried at loop iteration `counter`:
`f"\x7bstem\x7d_DUP\x7bcounter if counter > 1 else ''\x7d\x7bsuffix\x7d"`. -/
def dupCandidateName (stem suffix : String) (counter : Nat) : String :=
  stem ++ "_DUP" ++ (if counter > 1 then toString counter else "") ++ suffix

/-- Full candidate path at iteration `counter`: `parent / new_name`. -/
def mkDupCandidate (remote_path : String) (counter : Nat) : String :=
  let ss := pathStemSuffix (pathName remote_path)
  pathParentJoin remote_path (dupCandidateName ss.1 ss.2 counter)

/-- The `while True` search of `generate_duplicate_name`, with explicit
fuel (the Python loop terminates because only finitely many remote files
exist; callers pass fuel exceeding the remote file count). -/
def genDupGo (remoteExists : String → Bool) (remote_path : String) :
    Nat → Nat → String
  | counter, 0 => mkDupCandidate remote_path counter
  | counter, fuel + 1 =>
      if remoteExists (mkDupCandidate remote_path counter) then
        genDupGo remoteExists remote_path (counter + 1) fuel
      else mkDupCandidate remote_path counter

/-- `FileUtils.generate_duplicate_name`: in dry-run the first candidate
(`counter = 1`) is returned before any remote check; otherwise the first
candidate that does not exist remotely is returned. -/
def generate_duplicate_name (remoteExists : String → Bool) (fuel : Nat)
    (remote_path : String) (dry_run : Bool) : String :=
  if dry_run then mkDupCandidate remote_path 1
  else genDupGo remoteExists remote_path 1 fuel

/-- `FileUtils.get_relative_path`: `Path(file).relative_to(base)` for
normalized paths — strip the leading `base ++ "/"` — falling back to the
bare file name when `file` is not under `base`. -/
def get_relative_path (file base : String) : String :=
  if (base.data ++ ['/']).isPrefixOf file.data then
    ⟨file.data.drop (base.data.length + 1)⟩
  else pathName file

/-! ## `database_manager.DatabaseManager` (SQLite store) -/

/-- One row of `sync_reports`.  Timestamps and durations are irrelevant
to the claims and omitted; rows are kept in insertion (= `sync_date`)
order. -/
structure SyncSession where
  sid : Nat
  files_transferred : Nat := 0
  duplicates_found : Nat := 0
  duplicates_renamed : Nat := 0
  errors_count : Nat := 0
  skipped_files : Nat := 0
  already_processed : Nat := 0
  total_size_bytes : Nat := 0
  source_path : String
  dest_path : String
  status : String
  resumed_from_id : Option Nat := none
deriving Repr, DecidableEq

/-- One row of `transferred_files`. -/
structure TransferRecord where
  sync_id : Nat
  source_file : String
  dest_file : String
  file_hash : String
  file_size : Nat
  is_duplicate : Bool
  processing_status : String
deriving Repr, DecidableEq

/-- One row of `sync_errors`. -/
structure ErrorRecord where
  sync_id : Nat
  error_message : String
  file_path : Option String
deriving Repr, DecidableEq

/-- The SQLite store: three append-only tables plus the next
`AUTOINCREMENT` id (ids start at 1, so `exclude_sync_id` is never the
Python-falsy 0). -/
structure Database where
  sync_reports : List SyncSession := []
  transferred_files : List TransferRecord := []
  sync_errors : List ErrorRecord := []
  next_id : Nat := 1
deriving Repr, DecidableEq

/-- `DatabaseManager.start_sync_session`: insert a `'RUNNING'` row and
return its id. -/
def Database.start_sync_session (db : Database) (source dest : String)
    (resumed_from : Option Nat) : Nat × Database :=
  (db.next_id,
   { db with
      sync_reports := db.sync_reports ++
        [{ sid := db.next_id, source_path := source, dest_path := dest,
           status := "RUNNING", resumed_from_id := resumed_from }],
      next_id := db.next_id + 1 })

/-- `DatabaseManager.update_sync_report`: copy the report counters and
the final status onto the session row. -/
def Database.update_sync_report (db : Database) (sync_id : Nat)
    (report : MediaSyncReport) (status : String) : Database :=
  { db with sync_reports := db.sync_reports.map (fun s =>
      if s.sid = sync_id then
        { s with
            files_transferred := report.files_transferred,
            duplicates_found := report.duplicates_found,
            duplicates_renamed := report.duplicates_renamed,
            errors_count := report.errors.length,
            skipped_files := report.skipped_files,
            already_processed := report.already_processed,
            total_size_bytes := report.total_size_transferred,
            status := status }
      else s) }

/-- `DatabaseManager.log_transferred_file`. -/
def Database.log_transferred_file (db : Database) (sync_id : Nat)
    (source_file dest_file file_hash : String) (file_size : Nat)
    (is_duplicate : Bool) (status : String) : Database :=
  { db with transferred_files := db.transferred_files ++
      [{ sync_id := sync_id, source_file := source_file,
         dest_file := dest_file, file_hash := file_hash,
         file_size := file_size, is_duplicate := is_duplicate,
         processing_status := status }] }

/-- `DatabaseManager.log_error`. -/
def Database.log_error (db : Database) (sync_id : Nat)
    (error_message : String) (file_path : Option String) : Database :=
  { db with sync_errors := db.sync_errors ++
      [{ sync_id := sync_id, error_message := error_message,
         file_path := file_path }] }

/-- `DatabaseManager.find_incomplete_sync`:
`SELECT id ... WHERE source, dest match AND status IN
('RUNNING','INTERRUPTED') ORDER BY sync_date DESC LIMIT 1`; rows are in
`sync_date` order, so the last matching row wins. -/
def Database.find_incomplete_sync (db : Database) (source dest : String) :
    Option Nat :=
  ((db.sync_reports.filter (fun s =>
      s.source_path = source ∧ s.dest_path = dest ∧
      (s.status = "RUNNING" ∨ s.status = "INTERRUPTED"))).getLast?).map
    (·.sid)

/-- `DatabaseManager.get_processed_files`:
`SELECT DISTINCT source_file WHERE sync_id IN ids AND
processing_status = 'COMPLETED'` (empty id list short-circuits). -/
def Database.get_processed_files (db : Database) (sync_ids : List Nat) :
    List String :=
  if sync_ids.isEmpty then []
  else
    ((db.transferred_files.filter (fun r =>
        sync_ids.contains r.sync_id ∧
        r.processing_status = "COMPLETED")).map (·.source_file)).dedup

/-- `DatabaseManager.mark_sync_interrupted`. -/
def Database.mark_sync_interrupted (db : Database) (sync_id : Nat) :
    Database :=
  { db with sync_reports := db.sync_reports.map (fun s =>
      if s.sid = sync_id then { s with status := "INTERRUPTED" } else s) }

/-- `DatabaseManager.get_all_previous_processed_files`: join of
`transferred_files` with `sync_reports` on the session id, filtered to
the `(source, dest)` pair, `processing_status = 'COMPLETED'` and
`sync_id != exclude_sync_id` when one is given; the resulting
`(source_file, file_hash)` pairs model the Python dict comprehension
(only the key set is consumed by callers). -/
def Database.get_all_previous_processed_files (db : Database)
    (source dest : String) (exclude_sync_id : Option Nat) :
    List (String × String) :=
  (db.transferred_files.filter (fun r =>
      (db.sync_reports.any (fun s =>
          s.sid = r.sync_id ∧ s.source_path = source ∧
          s.dest_path = dest)) &&
      decide (r.processing_status = "COMPLETED") &&
      (match exclude_sync_id with
       | some e => decide (r.sync_id ≠ e)
       | none => true))).map (fun r => (r.source_file, r.file_hash))

/-! ## `sync_manager.NextcloudMediaSync`: the transfer pipeline -/

/-- A candidate local file: its path, the result of
`FileUtils.calculate_file_hash` (`none` models a hash failure) and its
`stat().st_size`. -/
structure LocalFile where
  path : String
  hash : Option String
  size : Nat
deriving Repr, DecidableEq

/-- The SSH transport as an oracle: per-path outcomes of the real copy
(`SSHManager.transfer_file` inside `transfer_as_www_data`), of the real
`mkdir -p` (`ensure_directory_as_www_data`), the `(path, hash)` pairs the
remote destination scan finds and hashes successfully, and the files
initially present at the destination (`test -f`). -/
structure Env where
  copy_ok : String → Bool
  mkdir_ok : String → Bool
  remote_media : List (String × String)
  remote_fs0 : List String

/-- Run configuration (constructor arguments of `NextcloudMediaSync`). -/
structure Config where
  local_source_path : String
  nextcloud_dest_path : String
  dry_run : Bool

/-- A side-effecting operation issued to the remote transport. -/
inductive RemoteOp where
  | copyFile (localPath remotePath : String)
  | makeDir (dir : String)
deriving Repr, DecidableEq

/-- Mutable run state: the report, the duplicate registry, the store,
the set of files actually present remotely (initial files plus every
successfully copied file, consulted by `test -f`), the trace of remote
side-effecting operations issued, and `self.sync_id`. -/
structure SyncState where
  report : MediaSyncReport := {}
  checker : DuplicateChecker := {}
  db : Database := {}
  remote_fs : List String := []
  ops : List RemoteOp := []
  sync_id : Option Nat := none

/-- `NextcloudMediaSync.transfer_as_www_data`: a dry run returns `True`
with no remote traffic; a real run issues the SCP copy (recorded in the
trace) and, on success, the file appears remotely.  The follow-up
`chown` does not affect the outcome (its failure is tolerated). -/
def transfer_as_www_data (env : Env) (cfg : Config) (st : SyncState)
    (local_path remote_path : String) : Bool × SyncState :=
  if cfg.dry_run then (true, st)
  else
    let st' := { st with ops := st.ops ++ [.copyFile local_path remote_path] }
    if env.copy_ok local_path then
      (true, { st' with remote_fs := st'.remote_fs ++ [remote_path] })
    else (false, st')

/-- `NextcloudMediaSync.ensure_directory_as_www_data`: dry run is a pure
no-op; a real run issues the directory creation. -/
def ensure_directory_as_www_data (env : Env) (cfg : Config)
    (st : SyncState) (remote_dir : String) : Bool × SyncState :=
  if cfg.dry_run then (true, st)
  else
    let st' := { st with ops := st.ops ++ [.makeDir remote_dir] }
    (env.mkdir_ok remote_dir, st')

/-- Persist a transfer row when `self.sync_id` is set (the
`if self.sync_id:` guard around `db.log_transferred_file`). -/
def logTransferIfSession (st : SyncState) (source_file dest_file
    file_hash : String) (file_size : Nat) (is_duplicate : Bool)
    (status : String) : SyncState :=
  match st.sync_id with
  | some sid =>
      { st with db := (st.db.log_transferred_file sid source_file
          dest_file file_hash file_size is_duplicate status) }
  | none => st

/-- Persist an error row when `self.sync_id` is set. -/
def logErrorIfSession (st : SyncState) (msg : String)
    (file_path : Option String) : SyncState :=
  match st.sync_id with
  | some sid => { st with db := st.db.log_error sid msg file_path }
  | none => st

/-- `NextcloudMediaSync._execute_transfer` (real mode): create the parent
directory, test for a duplicate (counting it, and renaming, *before* the
copy), copy, then update the registry, the transferred counters for a
non-duplicate, and log a `'COMPLETED'` row. -/
def execute_transfer (env : Env) (cfg : Config) (st : SyncState)
    (local_path remote_dest_path file_hash : String) (file_size : Nat) :
    Bool × SyncState :=
  let remote_parent := pathParent remote_dest_path
  let (ok, st1) := ensure_directory_as_www_data env cfg st remote_parent
  if ¬ ok then
    (false, { st1 with report := (st1.report.add_error
        ("Impossibile creare directory " ++ remote_parent ++
         " come www-data")) })
  else
    let is_duplicate := st1.checker.is_duplicate_in_remote file_hash
    let st2 :=
      if is_duplicate then
        { st1 with report := st1.report.add_duplicate } else st1
    let final_remote_path :=
      if is_duplicate then
        generate_duplicate_name (fun p => st2.remote_fs.contains p)
          (st2.remote_fs.length + 1) remote_dest_path false
      else remote_dest_path
    let st3 :=
      if is_duplicate then
        { st2 with report := st2.report.add_renamed_duplicate } else st2
    let (copied, st4) :=
      transfer_as_www_data env cfg st3 local_path final_remote_path
    if ¬ copied then
      (false, { st4 with report := (st4.report.add_error
          ("Trasferimento come www-data fallito per " ++ local_path)) })
    else
      let st5 := { st4 with checker :=
          st4.checker.add_remote_file_hash file_hash final_remote_path }
      let st6 :=
        if ¬ is_duplicate then
          { st5 with report := st5.report.add_transferred file_size }
        else st5
      (true, logTransferIfSession st6 local_path final_remote_path
        file_hash file_size is_duplicate "COMPLETED")

/-- `NextcloudMediaSync._simulate_transfer` (dry-run mode): identical
duplicate decision, counters updated, registry updated with the
*original* destination path, a `'DRY_RUN'` row logged; no remote
operation is issued. -/
def simulate_transfer (env : Env) (cfg : Config) (st : SyncState)
    (local_path remote_dest_path file_hash : String) (file_size : Nat) :
    Bool × SyncState :=
  let is_duplicate := st.checker.is_duplicate_in_remote file_hash
  let st1 :=
    if is_duplicate then
      { st with report :=
          (st.report.add_duplicate).add_renamed_duplicate }
    else { st with report := st.report.add_transferred file_size }
  let final_remote_path :=
    if is_duplicate then
      generate_duplicate_name (fun p => st1.remote_fs.contains p)
        (st1.remote_fs.length + 1) remote_dest_path true
    else remote_dest_path
  let (_, st2) :=
    transfer_as_www_data env cfg st1 local_path final_remote_path
  let st3 := { st2 with checker :=
      st2.checker.add_remote_file_hash file_hash remote_dest_path }
  (true, logTransferIfSession st3 local_path remote_dest_path file_hash
    file_size is_duplicate "DRY_RUN")

/-- `NextcloudMediaSync.transfer_file`: the per-file pipeline —
path-based already-processed check, hash computation, hash-based
already-processed check, destination mapping, then the dry or real
transfer. -/
def transfer_file (env : Env) (cfg : Config) (st : SyncState)
    (f : LocalFile) : Bool × SyncState :=
  if st.checker.is_file_already_processed f.path none then
    (true, { st with report := st.report.add_already_processed })
  else
    match f.hash with
    | none =>
        let st1 := { st with report := (st.report.add_error
            ("Impossibile calcolare hash per " ++ f.path)) }
        (false, logErrorIfSession st1 "Calcolo hash fallito" (some f.path))
    | some file_hash =>
        if file_hash = "" then
          let st1 := { st with report := (st.report.add_error
              ("Impossibile calcolare hash per " ++ f.path)) }
          (false,
           logErrorIfSession st1 "Calcolo hash fallito" (some f.path))
        else if st.checker.is_file_already_processed f.path
            (some file_hash) then
          (true, { st with report := st.report.add_already_processed })
        else
          let relative_path :=
            get_relative_path f.path cfg.local_source_path
          let remote_dest_path :=
            cfg.nextcloud_dest_path ++ "/" ++ relative_path
          if cfg.dry_run then
            simulate_transfer env cfg st f.path remote_dest_path
              file_hash f.size
          else
            execute_transfer env cfg st f.path remote_dest_path
              file_hash f.size

/-- The per-file loop inside `sync_files`: the boolean outcome of
`transfer_file` is ignored, every file is processed. -/
def process_files (env : Env) (cfg : Config) (st : SyncState)
    (files : List LocalFile) : SyncState :=
  files.foldl (fun s f => (transfer_file env cfg s f).2) st

/-! ## Interruption model

A `KeyboardInterrupt` can arrive between any two atomic effects of
`transfer_file`.  `transfer_file_trace` lists, in order, every state the
per-file pipeline passes through (one entry after each mutation of the
report, registry, store or remote side); `interrupt_transfer` is the
`except KeyboardInterrupt` handler, which persists an `'INTERRUPTED'`
row for the in-flight file (with empty destination, size 0, and whatever
hash value is in scope) before re-raising. -/

/-- All intermediate states of `transfer_file`, in execution order,
starting with the entry state and ending with the returned state. -/
def transfer_file_trace (env : Env) (cfg : Config) (st : SyncState)
    (f : LocalFile) : List SyncState :=
  if st.checker.is_file_already_processed f.path none then
    [st, { st with report := st.report.add_already_processed }]
  else
    match f.hash with
    | none =>
        let st1 := { st with report := (st.report.add_error
            ("Impossibile calcolare hash per " ++ f.path)) }
        [st, st1, logErrorIfSession st1 "Calcolo hash fallito" (some f.path)]
    | some file_hash =>
        if file_hash = "" then
          let st1 := { st with report := (st.report.add_error
              ("Impossibile calcolare hash per " ++ f.path)) }
          [st, st1,
           logErrorIfSession st1 "Calcolo hash fallito" (some f.path)]
        else if st.checker.is_file_already_processed f.path
            (some file_hash) then
          [st, { st with report := st.report.add_already_processed }]
        else
          let remote_dest_path :=
            cfg.nextcloud_dest_path ++ "/" ++
              get_relative_path f.path cfg.local_source_path
          if cfg.dry_run then
            let is_duplicate := st.checker.is_duplicate_in_remote file_hash
            let counterStates :=
              if is_duplicate then
                [{ st with report := st.report.add_duplicate },
                 { st with report :=
                     (st.report.add_duplicate).add_renamed_duplicate }]
              else [{ st with report := st.report.add_transferred f.size }]
            let stP :=
              if is_duplicate then
                { st with report :=
                    (st.report.add_duplicate).add_renamed_duplicate }
              else { st with report := st.report.add_transferred f.size }
            let stReg := { stP with checker :=
                (stP.checker.add_remote_file_hash file_hash
                  remote_dest_path) }
            [st] ++ counterStates ++
              [stReg,
               logTransferIfSession stReg f.path remote_dest_path file_hash
                 f.size is_duplicate "DRY_RUN"]
          else
            let remote_parent := pathParent remote_dest_path
            let stM := { st with ops := st.ops ++ [.makeDir remote_parent] }
            if ¬ env.mkdir_ok remote_parent then
              [st, stM,
               { stM with report := (stM.report.add_error
                   ("Impossibile creare directory " ++ remote_parent ++
                    " come www-data")) }]
            else
              let is_duplicate :=
                stM.checker.is_duplicate_in_remote file_hash
              let dupStates :=
                if is_duplicate then
                  [{ stM with report := stM.report.add_duplicate },
                   { stM with report :=
                       (stM.report.add_duplicate).add_renamed_duplicate }]
                else []
              let st3 :=
                if is_duplicate then
                  { stM with report :=
                      (stM.report.add_duplicate).add_renamed_duplicate }
                else stM
              let final_remote_path :=
                if is_duplicate then
                  generate_duplicate_name (fun p => st3.remote_fs.contains p)
                    (st3.remote_fs.length + 1) remote_dest_path false
                else remote_dest_path
              let stC0 := { st3 with ops :=
                  st3.ops ++ [.copyFile f.path final_remote_path] }
              if ¬ env.copy_ok f.path then
                [st, stM] ++ dupStates ++
                  [stC0,
                   { stC0 with report := (stC0.report.add_error
                       ("Trasferimento come www-data fallito per " ++
                        f.path)) }]
              else
                let stC := { stC0 with remote_fs :=
                    (stC0.remote_fs ++ [final_remote_path]) }
                let stReg := { stC with checker :=
                    (stC.checker.add_remote_file_hash file_hash
                      final_remote_path) }
                let transferredStates :=
                  if is_duplicate then []
                  else [{ stReg with report :=
                      (stReg.report.add_transferred f.size) }]
                let st6 :=
                  if is_duplicate then stReg
                  else { stReg with report :=
                      (stReg.report.add_transferred f.size) }
                [st, stM] ++ dupStates ++ [stC, stReg] ++
                  transferredStates ++
                  [logTransferIfSession st6 f.path final_remote_path
                     file_hash f.size is_duplicate "COMPLETED"]

/-- The `except KeyboardInterrupt` handler of `transfer_file`:
`db.log_transferred_file(sync_id, path, '', hash-if-bound-else '', 0,
False, 'INTERRUPTED')`, guarded by `if self.sync_id:`. -/
def interrupt_transfer (st : SyncState) (f : LocalFile) (hv : String) :
    SyncState :=
  logTransferIfSession st f.path "" hv 0 false "INTERRUPTED"

/-- Number of `'RUNNING'`-or-`'INTERRUPTED'` sessions recorded for a
`(source, dest)` pair — the quantity the resumability invariant talks
about. -/
def nonTerminalCount (db : Database) (source dest : String) : Nat :=
  (db.sync_reports.filter (fun s =>
      s.source_path = source ∧ s.dest_path = dest ∧
      (s.status = "RUNNING" ∨ s.status = "INTERRUPTED"))).length

/-! ## Session controller (`check_for_resume`, remote scan, `sync_files`) -/

/-- `DuplicateChecker.load_processed_files`: *replace* `processed_files`
by the key set of `get_all_previous_processed_files`. -/
def DuplicateChecker.load_processed_files (dc : DuplicateChecker)
    (db : Database) (source dest : String) (exclude_sync_id : Option Nat) :
    DuplicateChecker :=
  { dc with processed_files :=
      ((db.get_all_previous_processed_files source dest
          exclude_sync_id).map Prod.fst).dedup }

/-- `DuplicateChecker.load_interrupted_files`: union in the files of the
given sessions (`set.update`). -/
def DuplicateChecker.load_interrupted_files (dc : DuplicateChecker)
    (db : Database) (sync_ids : List Nat) : DuplicateChecker :=
  { dc with processed_files :=
      (dc.processed_files ++
        (db.get_processed_files sync_ids).filter
          (fun p => ¬ dc.processed_files.contains p)) }

/-- `NextcloudMediaSync.check_for_resume`: look up the most recent
non-terminal session for the pair; if the user accepts, remember it and
seed the checker from the store ((a) every other session of the pair,
(b) the resumed session itself); if the user declines mark the found
session `'INTERRUPTED'`.  Returns
`(resumed, resumed_from_id, checker, db)`. -/
def check_for_resume (cfg : Config) (user_accepts : Bool)
    (dc : DuplicateChecker) (db : Database) :
    Bool × Option Nat × DuplicateChecker × Database :=
  match db.find_incomplete_sync cfg.local_source_path
      cfg.nextcloud_dest_path with
  | none => (false, none, dc, db)
  | some incomplete_sync_id =>
      if user_accepts then
        let dc1 := dc.load_processed_files db cfg.local_source_path
          cfg.nextcloud_dest_path (some incomplete_sync_id)
        let dc2 := dc1.load_interrupted_files db [incomplete_sync_id]
        (true, some incomplete_sync_id, dc2, db)
      else
        (false, none, dc, db.mark_sync_interrupted incomplete_sync_id)

/-- `FileScanner.scan_remote_files`: a dry run logs and returns without
touching the registry; a real run issues `mkdir -p` on the destination
root, then registers the hash of every remote media file found. -/
def scan_remote_files (env : Env) (cfg : Config) (st : SyncState) :
    SyncState :=
  if cfg.dry_run then st
  else
    let st1 := { st with ops := st.ops ++
        [.makeDir cfg.nextcloud_dest_path] }
    env.remote_media.foldl
      (fun s pr =>
        { s with checker := s.checker.add_remote_file_hash pr.2 pr.1 })
      st1

/-- The opening moves of `sync_files`: the resume check (skipped for a
dry run) followed by `start_sync_session`.  Returns
`(resumed, sync_id, checker, db)`. -/
def start_run (cfg : Config) (user_accepts : Bool) (db0 : Database) :
    Bool × Nat × DuplicateChecker × Database :=
  let r :=
    if cfg.dry_run then (false, none, {}, db0)
    else check_for_resume cfg user_accepts {} db0
  let sdb := r.2.2.2.start_sync_session cfg.local_source_path
    cfg.nextcloud_dest_path r.2.1
  (r.1, sdb.1, r.2.2.1, sdb.2)

/-- `NextcloudMediaSync.sync_files`, from the resume check to the final
report row.  The SSH connection and the dry-run pre-checks are assumed
to succeed (their failure aborts before any claim-relevant behaviour),
and the post-sync Nextcloud commands are the external post-processing
hook, outside the core.  Returns the run's boolean outcome and the final
state. -/
def sync_files (env : Env) (cfg : Config) (user_accepts : Bool)
    (files : List LocalFile) (db0 : Database) : Bool × SyncState :=
  let r := start_run cfg user_accepts db0
  let resumed := r.1
  let sync_id := r.2.1
  let checker1 := r.2.2.1
  let st0 : SyncState :=
    { checker := checker1, db := r.2.2.2, remote_fs := env.remote_fs0,
      sync_id := some sync_id }
  let st1 :=
    if ¬ resumed ∨ cfg.dry_run then scan_remote_files env cfg st0 else st0
  if files.isEmpty then
    (true, { st1 with db := (st1.db.update_sync_report sync_id st1.report
        "NO_FILES") })
  else
    let st2 := process_files env cfg st1 files
    let status :=
      if cfg.dry_run then "DRY_RUN_COMPLETED"
      else if st2.report.errors.isEmpty then "COMPLETED"
      else "COMPLETED_WITH_ERRORS"
    (st2.report.errors.isEmpty,
     { st2 with db := st2.db.update_sync_report sync_id st2.report status })


/-! ## Helper lemmas -/

theorem splitLast_of_not_mem {c : Char} {pre post : List Char}
    (h : c ∉ post) : splitLast c (pre ++ c :: post) = some (pre, post) := by
  induction pre with
  | nil =>
      have hnone : splitLast c post = none := by
        induction post with
        | nil => rfl
        | cons x xs ih =>
            simp only [List.mem_cons, not_or] at h
            simp [splitLast, ih h.2, Ne.symm h.1, h.1]
      simp [splitLast, hnone]
  | cons x xs ih => simp [splitLast, ih]

theorem splitLast_none_not_mem {c : Char} {cs : List Char}
    (h : splitLast c cs = none) : c ∉ cs := by
  induction cs with
  | nil => simp
  | cons x xs ih =>
      simp only [splitLast] at h
      rcases hx : splitLast c xs with _ | pr
      · rw [hx] at h
        by_cases hxc : x = c
        · simp [hxc] at h
        · simp [List.mem_cons, Ne.symm hxc, ih hx, hxc]
      · rw [hx] at h
        simp at h

theorem splitLast_some_mem {c : Char} {cs : List Char}
    (h : c ∈ cs) : (splitLast c cs).isSome := by
  rcases hx : splitLast c cs with _ | pr
  · exact absurd h (splitLast_none_not_mem hx)
  · rfl

theorem splitLast_sound {c : Char} : ∀ {cs pre post : List Char},
    splitLast c cs = some (pre, post) → cs = pre ++ c :: post ∧ c ∉ post := by
  intro cs
  induction cs with
  | nil => intro pre post h; simp [splitLast] at h
  | cons x xs ih =>
      intro pre post h
      simp only [splitLast] at h
      rcases hx : splitLast c xs with _ | ⟨a, b⟩
      · rw [hx] at h
        by_cases hxc : x = c
        · rw [if_pos hxc] at h
          simp only [Option.some.injEq, Prod.mk.injEq] at h
          obtain ⟨rfl, rfl⟩ := h
          exact ⟨by simp [hxc], splitLast_none_not_mem hx⟩
        · simp [hxc] at h
      · rw [hx] at h
        simp only [Option.some.injEq, Prod.mk.injEq] at h
        obtain ⟨rfl, rfl⟩ := h
        obtain ⟨h1, h2⟩ := ih hx
        exact ⟨by simp [h1], h2⟩

theorem dictLookup_insert_self (d : List (String × String)) (k v : String) :
    dictLookup (dictInsert d k v) k = some v := by
  induction d with
  | nil => simp [dictInsert, dictLookup]
  | cons p rest ih =>
      obtain ⟨k', v'⟩ := p
      by_cases h : k' = k
      · simp [dictInsert, h, dictLookup]
      · simp [dictInsert, h, dictLookup, ih]

theorem dictContains_eq_keys (d : List (String × String)) (k : String) :
    dictContains d k = (d.map Prod.fst).contains k := by
  induction d with
  | nil => simp [dictContains, dictLookup]
  | cons p rest ih =>
      obtain ⟨k', v'⟩ := p
      by_cases h : k' = k
      · simp [dictContains, dictLookup, h]
      · simp only [dictContains, dictLookup, if_neg h, List.map_cons,
          List.contains_cons] at ih ⊢
        rw [ih]
        have : (k == k') = false := by
          simp [Ne.symm h]
        simp [this]

theorem dictKeys_insert_congr : ∀ {a b : List (String × String)},
    a.map Prod.fst = b.map Prod.fst → ∀ (k v w : String),
    (dictInsert a k v).map Prod.fst = (dictInsert b k w).map Prod.fst := by
  intro a
  induction a with
  | nil =>
      intro b h k v w
      cases b with
      | nil => simp [dictInsert]
      | cons q t => simp at h
  | cons p rest ih =>
      intro b h k v w
      cases b with
      | nil => simp at h
      | cons q t =>
          obtain ⟨k1, v1⟩ := p
          obtain ⟨k2, v2⟩ := q
          simp only [List.map_cons, List.cons.injEq] at h
          obtain ⟨hk, ht⟩ := h
          subst hk
          by_cases hkk : k1 = k
          · simp [dictInsert, hkk, ht]
          · simp only [dictInsert, if_neg hkk, List.map_cons,
              List.cons.injEq, true_and]
            exact ih ht k v w

theorem dictValues_insert_subset {d : List (String × String)}
    {k v : String} :
    ∀ w ∈ dictValues (dictInsert d k v), w = v ∨ w ∈ dictValues d := by
  induction d with
  | nil => simp [dictInsert, dictValues]
  | cons p rest ih =>
      obtain ⟨k', v'⟩ := p
      intro w hw
      by_cases h : k' = k
      · simp only [dictInsert, if_pos h, dictValues, List.map_cons,
          List.mem_cons] at hw ⊢
        tauto
      · simp only [dictInsert, if_neg h, dictValues, List.map_cons,
          List.mem_cons] at hw ⊢
        rcases hw with hw | hw
        · tauto
        · rcases ih w hw with h1 | h1 <;> tauto

theorem string_data_ext {a b : String} (h : a.data = b.data) : a = b := by
  cases a; cases b; simp_all

theorem string_append_left_cancel {s a b : String} (h : s ++ a = s ++ b) :
    a = b := by
  apply string_data_ext
  have := congrArg String.data h
  simpa [String.data_append] using this

theorem string_append_right_cancel {a b s : String} (h : a ++ s = b ++ s) :
    a = b := by
  apply string_data_ext
  have := congrArg String.data h
  simpa [String.data_append] using this

theorem toDigitsCore_length_ge (b : Nat) :
    ∀ (f n : Nat) (acc : List Char), 1 ≤ f →
      acc.length + 1 ≤ (Nat.toDigitsCore b f n acc).length := by
  intro f
  induction f with
  | zero => intro n acc h; omega
  | succ f ih =>
      intro n acc _
      show acc.length + 1 ≤ (Nat.toDigitsCore b (f + 1) n acc).length
      rw [Nat.toDigitsCore]
      by_cases h : n / b = 0
      · simp [h]
      · rw [if_neg h]
        cases f with
        | zero =>
            show acc.length + 1 ≤ (Nat.toDigitsCore b 0 (n / b) _).length
            rw [Nat.toDigitsCore]
            simp
        | succ f' =>
            have := ih (n / b) (Nat.digitChar (n % b) :: acc) (by omega)
            simp only [List.length_cons] at this
            omega

theorem nat_repr_ne_one {n : Nat} (h : 2 ≤ n) : Nat.repr n ≠ "1" := by
  by_cases hlt : n < 10
  · interval_cases n <;> decide
  · intro he
    have h10 : ¬ n / 10 = 0 := by
      have : 1 ≤ n / 10 := Nat.le_div_iff_mul_le (by omega) |>.mpr (by omega)
      omega
    have h2 : 2 ≤ (Nat.repr n).length := by
      show 2 ≤ (Nat.toDigits 10 n).asString.length
      have hlen : (Nat.toDigits 10 n).asString.length =
          (Nat.toDigits 10 n).length := rfl
      rw [hlen]
      show 2 ≤ (Nat.toDigitsCore 10 (n + 1) n []).length
      rw [Nat.toDigitsCore]
      rw [if_neg h10]
      have := toDigitsCore_length_ge 10 n (n / 10)
        [Nat.digitChar (n % 10)] (by omega)
      simpa using this
    rw [he] at h2
    exact absurd h2 (by decide)

theorem dupCandidateName_ne_dup1 (stem suffix : String) (n : Nat) :
    dupCandidateName stem suffix n ≠ stem ++ "_DUP1" ++ suffix := by
  intro he
  unfold dupCandidateName at he
  have hr : stem ++ "_DUP1" ++ suffix = stem ++ "_DUP" ++ "1" ++ suffix := by
    have : ("_DUP1" : String) = "_DUP" ++ "1" := by decide
    rw [this, ← String.append_assoc]
  rw [hr] at he
  rw [String.append_assoc (stem ++ "_DUP"), String.append_assoc
    (stem ++ "_DUP")] at he
  have hmid : (if n > 1 then toString n else "") ++ suffix =
      "1" ++ suffix := string_append_left_cancel he
  have hmid2 : (if n > 1 then toString n else "") = "1" :=
    string_append_right_cancel hmid
  by_cases h2 : n > 1
  · rw [if_pos h2] at hmid2
    exact nat_repr_ne_one h2 hmid2
  · rw [if_neg h2] at hmid2
    exact absurd hmid2 (by decide)

theorem pathParentJoin_inj {s a b : String}
    (h : pathParentJoin s a = pathParentJoin s b) : a = b := by
  unfold pathParentJoin at h
  cases hs : splitLast '/' s.data with
  | none => rw [hs] at h; exact h
  | some pr => rw [hs] at h; exact string_append_left_cancel h

theorem genDupGo_first_free (g : String → Bool) (p : String) :
    ∀ (fuel c j : Nat), c ≤ j → j ≤ c + fuel →
      g (mkDupCandidate p j) = false →
      (∀ i, c ≤ i → i < j → g (mkDupCandidate p i) = true) →
      genDupGo g p c fuel = mkDupCandidate p j := by
  intro fuel
  induction fuel with
  | zero =>
      intro c j h1 h2 _ _
      have hc : c = j := by omega
      subst hc
      rfl
  | succ fuel ih =>
      intro c j h1 h2 hfree hbusy
      by_cases hc : c = j
      · subst hc
        show genDupGo g p c (fuel + 1) = mkDupCandidate p c
        rw [genDupGo, hfree]
        simp
      · have hcj : c < j := by omega
        show genDupGo g p c (fuel + 1) = mkDupCandidate p j
        rw [genDupGo, hbusy c le_rfl hcj]
        simp only [if_true]
        exact ih (c + 1) j (by omega) (by omega) hfree
          (fun i hi1 hi2 => hbusy i (by omega) hi2)

/-! ## The claims -/

/-- C1.  The claim: the already-processed check is true iff the path is in
`processedLocalPaths` or, when a hash is supplied, the hash equals some
content hash registered in the remote hash index (hash → path).  The code
iterates over the dict's *values* (remote paths) instead of its keys, so
with hash `"h1"` registered for `"/dest/x.jpg"` the query for a fresh path
with hash `"h1"` returns `false` although `"h1"` is a registered hash —
while supplying the registered *path* as the `hash` argument returns
`true`.  This contradicts the claim (and the monolithic draft of the same
check, which compares against stored hashes): a code bug. -/
theorem c1_hash_check_compares_paths_not_hashes :
    (DuplicateChecker.is_file_already_processed
        { processed_files := [],
          remote_file_hashes := [("h1", "/dest/x.jpg")] }
        "/local/b.jpg" (some "h1")) = false ∧
    dictContains [("h1", "/dest/x.jpg")] "h1" = true ∧
    (DuplicateChecker.is_file_already_processed
        { processed_files := [],
          remote_file_hashes := [("h1", "/dest/x.jpg")] }
        "/local/b.jpg" (some "/dest/x.jpg")) = true := by
  decide

/-- C9.  For a destination path with stem `s` and extension `e`, the
generator tries `s_DUP e`, `s_DUP2 e`, `s_DUP3 e`, … (the numbering jumps
from nothing to 2, so `s_DUP1 e` is never produced), returns the first
candidate that does not exist remotely, and in a simulated run returns the
first candidate for *any* remote-existence oracle (no remote check). -/
theorem c9_duplicate_name_generation (remoteExists : String → Bool)
    (fuel : Nat) (remote_path stem suffix : String)
    (hss : pathStemSuffix (pathName remote_path) = (stem, suffix))
    (j : Nat) (hj1 : 1 ≤ j) (hjf : j ≤ 1 + fuel)
    (hfree : remoteExists (mkDupCandidate remote_path j) = false)
    (hbusy : ∀ i, 1 ≤ i → i < j →
      remoteExists (mkDupCandidate remote_path i) = true) :
    generate_duplicate_name remoteExists fuel remote_path false =
      mkDupCandidate remote_path j ∧
    (∀ (g : String → Bool) (fl : Nat),
      generate_duplicate_name g fl remote_path true =
        pathParentJoin remote_path (stem ++ "_DUP" ++ suffix)) ∧
    mkDupCandidate remote_path 1 =
      pathParentJoin remote_path (stem ++ "_DUP" ++ suffix) ∧
    (∀ n, 2 ≤ n → mkDupCandidate remote_path n =
      pathParentJoin remote_path (stem ++ "_DUP" ++ toString n ++ suffix)) ∧
    (∀ n, mkDupCandidate remote_path n ≠
      pathParentJoin remote_path (stem ++ "_DUP1" ++ suffix)) := by
  have hc1 : mkDupCandidate remote_path 1 =
      pathParentJoin remote_path (stem ++ "_DUP" ++ suffix) := by
    unfold mkDupCandidate
    rw [hss]
    unfold dupCandidateName
    simp
  have hcn : ∀ n, 2 ≤ n → mkDupCandidate remote_path n =
      pathParentJoin remote_path
        (stem ++ "_DUP" ++ toString n ++ suffix) := by
    intro n hn
    unfold mkDupCandidate
    rw [hss]
    unfold dupCandidateName
    rw [if_pos (by omega)]
  refine ⟨?_, ?_, hc1, hcn, ?_⟩
  · unfold generate_duplicate_name
    simp only [if_neg (Bool.false_ne_true)]
    exact genDupGo_first_free remoteExists remote_path fuel 1 j hj1
      (by omega) hfree hbusy
  · intro g fl
    unfold generate_duplicate_name
    simp only [if_pos rfl]
    exact hc1
  · intro n he
    have : dupCandidateName stem suffix n = stem ++ "_DUP1" ++ suffix := by
      apply pathParentJoin_inj (s := remote_path)
      have hme : mkDupCandidate remote_path n =
          pathParentJoin remote_path (dupCandidateName stem suffix n) := by
        unfold mkDupCandidate
        rw [hss]
      rw [← hme]
      exact he
    exact dupCandidateName_ne_dup1 stem suffix n this

/-- Witness for C9 at a concrete input: destination `/dest/a.jpg`,
`/dest/a_DUP.jpg` already taken remotely, so the second candidate
`/dest/a_DUP2.jpg` is chosen; a dry run takes `/dest/a_DUP.jpg`. -/
theorem c9_duplicate_name_generation_witness :
    generate_duplicate_name (fun s => s == "/dest/a_DUP.jpg") 2
        "/dest/a.jpg" false = "/dest/a_DUP2.jpg" ∧
    generate_duplicate_name (fun s => s == "/dest/a_DUP.jpg") 2
        "/dest/a.jpg" true = "/dest/a_DUP.jpg" := by
  have h := c9_duplicate_name_generation (fun s => s == "/dest/a_DUP.jpg")
    2 "/dest/a.jpg" "a" ".jpg" (by decide) 2 (by omega) (by omega)
    (by decide)
    (by
      intro i hi1 hi2
      have : i = 1 := by omega
      subst this
      decide)
  refine ⟨?_, ?_⟩
  · rw [h.1]
    decide
  · rw [h.2.1 (fun s => s == "/dest/a_DUP.jpg") 2]
    decide

/-- C5 counterexample.  A file whose copy step fails (SCP returns
failure): `transfer_file` returns `False` and the run report gains an
error message, but — contrary to the claim — *no* `ErrorRecord` row is
inserted into the store and the skipped counter stays 0: the
`db.log_error` + `add_skipped` pair only runs in the exception handler,
which a `False` return from the copy helper never reaches. -/
theorem c5_copy_failure_counterexample :
    let env : Env := { copy_ok := fun _ => false,
                       mkdir_ok := fun _ => true,
                       remote_media := [], remote_fs0 := [] }
    let cfg : Config := { local_source_path := "/src",
                          nextcloud_dest_path := "/dest", dry_run := false }
    let st : SyncState := { sync_id := some 1 }
    let f : LocalFile := { path := "/src/a.jpg", hash := some "h1",
                           size := 4 }
    (transfer_file env cfg st f).1 = false ∧
    (transfer_file env cfg st f).2.db.sync_errors = [] ∧
    (transfer_file env cfg st f).2.report.skipped_files = 0 ∧
    (transfer_file env cfg st f).2.report.errors.length = 1 := by
  decide

/-- C5, amended.  For every candidate file whose copy step fails, the
pipeline appends a failure message to the run report's in-memory error
list, returns `Failed`, and the run continues with the next file (never
fatal); however no `ErrorRecord` is persisted to the store, no
`TransferRecord` is written, and the skipped counter is not incremented
(those happen only when an exception is raised during the file's
processing). -/
theorem c5_copy_failure_report_only (env : Env) (cfg : Config)
    (st : SyncState) (f : LocalFile) (h : String)
    (hdry : cfg.dry_run = false)
    (hp1 : st.checker.is_file_already_processed f.path none = false)
    (hhash : f.hash = some h) (hne : ¬ h = "")
    (hp2 : st.checker.is_file_already_processed f.path (some h) = false)
    (hmkdir : env.mkdir_ok (pathParent (cfg.nextcloud_dest_path ++ "/" ++
      get_relative_path f.path cfg.local_source_path)) = true)
    (hcopy : env.copy_ok f.path = false) :
    (transfer_file env cfg st f).1 = false ∧
    (transfer_file env cfg st f).2.db.sync_errors = st.db.sync_errors ∧
    (transfer_file env cfg st f).2.db.transferred_files =
      st.db.transferred_files ∧
    (transfer_file env cfg st f).2.report.skipped_files =
      st.report.skipped_files ∧
    (transfer_file env cfg st f).2.report.errors = st.report.errors ++
      ["Trasferimento come www-data fallito per " ++ f.path] ∧
    (∀ rest, process_files env cfg st (f :: rest) =
      process_files env cfg (transfer_file env cfg st f).2 rest) := by
  refine ⟨?_, ?_, ?_, ?_, ?_, fun rest => by simp [process_files]⟩ <;>
  · by_cases hdup : st.checker.is_duplicate_in_remote h = true
    · simp only [transfer_file, hp1, hhash, hne, hp2, hdry,
        Bool.false_eq_true, if_false, execute_transfer,
        ensure_directory_as_www_data, transfer_as_www_data, hmkdir, hcopy,
        hdup, if_true, ite_true, ite_false, Bool.not_eq_true]
      simp [MediaSyncReport.add_error, MediaSyncReport.add_duplicate,
        MediaSyncReport.add_renamed_duplicate]
    · simp only [Bool.not_eq_true] at hdup
      simp only [transfer_file, hp1, hhash, hne, hp2, hdry,
        Bool.false_eq_true, if_false, execute_transfer,
        ensure_directory_as_www_data, transfer_as_www_data, hmkdir, hcopy,
        hdup, if_true, ite_true, ite_false, Bool.not_eq_true]
      simp [MediaSyncReport.add_error]

/-- Witness for C5 at a concrete failing copy. -/
theorem c5_copy_failure_report_only_witness :
    (transfer_file
        { copy_ok := fun _ => false, mkdir_ok := fun _ => true,
          remote_media := [], remote_fs0 := [] }
        { local_source_path := "/src", nextcloud_dest_path := "/dest",
          dry_run := false }
        { sync_id := some 1 }
        { path := "/src/a.jpg", hash := some "h1", size := 4 }).1 =
      false := by
  have h := c5_copy_failure_report_only
    { copy_ok := fun _ => false, mkdir_ok := fun _ => true,
      remote_media := [], remote_fs0 := [] }
    { local_source_path := "/src", nextcloud_dest_path := "/dest",
      dry_run := false }
    { sync_id := some 1 }
    { path := "/src/a.jpg", hash := some "h1", size := 4 } "h1"
    rfl (by decide) rfl (by decide) (by decide) (by decide) rfl
  exact h.1

/-- C6 counterexample.  A duplicate file whose copy then fails: the
duplicate and renamed-duplicate counters have already been incremented
when the failure happens, contradicting the claim that no counters
change for a file whose copy fails.  (The transferred counter and the
byte total are indeed untouched.) -/
theorem c6_duplicate_counters_incremented_before_copy :
    let env : Env := { copy_ok := fun _ => false,
                       mkdir_ok := fun _ => true,
                       remote_media := [], remote_fs0 := ["/dest/x.jpg"] }
    let cfg : Config := { local_source_path := "/src",
                          nextcloud_dest_path := "/dest", dry_run := false }
    let st : SyncState :=
      { checker := { remote_file_hashes := [("h1", "/dest/x.jpg")] },
        remote_fs := ["/dest/x.jpg"], sync_id := some 1 }
    let f : LocalFile := { path := "/src/a.jpg", hash := some "h1",
                           size := 4 }
    (transfer_file env cfg st f).1 = false ∧
    (transfer_file env cfg st f).2.report.duplicates_found = 1 ∧
    (transfer_file env cfg st f).2.report.duplicates_renamed = 1 ∧
    (transfer_file env cfg st f).2.report.files_transferred = 0 ∧
    (transfer_file env cfg st f).2.report.total_size_transferred = 0 := by
  decide

/-- C6, amended.  The transferred count and byte total are incremented
exactly when the copy succeeds and the file is not a duplicate; the
duplicate and renamed-duplicate counts are incremented exactly when the
file is classified a duplicate — this happens *before* the copy, so they
remain incremented even if the copy then fails. -/
theorem c6_counter_update_discipline (env : Env) (cfg : Config)
    (st : SyncState) (f : LocalFile) (h : String)
    (hdry : cfg.dry_run = false)
    (hp1 : st.checker.is_file_already_processed f.path none = false)
    (hhash : f.hash = some h) (hne : ¬ h = "")
    (hp2 : st.checker.is_file_already_processed f.path (some h) = false)
    (hmkdir : env.mkdir_ok (pathParent (cfg.nextcloud_dest_path ++ "/" ++
      get_relative_path f.path cfg.local_source_path)) = true) :
    (transfer_file env cfg st f).2.report.files_transferred =
      st.report.files_transferred +
        (if env.copy_ok f.path = true ∧
            st.checker.is_duplicate_in_remote h = false then 1 else 0) ∧
    (transfer_file env cfg st f).2.report.total_size_transferred =
      st.report.total_size_transferred +
        (if env.copy_ok f.path = true ∧
            st.checker.is_duplicate_in_remote h = false then f.size
         else 0) ∧
    (transfer_file env cfg st f).2.report.duplicates_found =
      st.report.duplicates_found +
        (if st.checker.is_duplicate_in_remote h = true then 1 else 0) ∧
    (transfer_file env cfg st f).2.report.duplicates_renamed =
      st.report.duplicates_renamed +
        (if st.checker.is_duplicate_in_remote h = true then 1 else 0) := by
  refine ⟨?_, ?_, ?_, ?_⟩ <;>
  · by_cases hdup : st.checker.is_duplicate_in_remote h = true <;>
      by_cases hcopy : env.copy_ok f.path = true
    all_goals
      first
      | (simp only [Bool.not_eq_true] at hdup hcopy
         simp only [transfer_file, hp1, hhash, hne, hp2, hdry,
           Bool.false_eq_true, if_false, execute_transfer,
           ensure_directory_as_www_data, transfer_as_www_data, hmkdir,
           hcopy, hdup, if_true, ite_true, ite_false, Bool.not_eq_true,
           logTransferIfSession]
         cases hsid : st.sync_id <;>
           simp [hsid, MediaSyncReport.add_error,
             MediaSyncReport.add_duplicate, MediaSyncReport.add_transferred,
             MediaSyncReport.add_renamed_duplicate, hdup, hcopy])

/-- Witness for C6 at a concrete successful non-duplicate copy. -/
theorem c6_counter_update_discipline_witness :
    (transfer_file
        { copy_ok := fun _ => true, mkdir_ok := fun _ => true,
          remote_media := [], remote_fs0 := [] }
        { local_source_path := "/src", nextcloud_dest_path := "/dest",
          dry_run := false }
        { sync_id := some 1 }
        { path := "/src/a.jpg", hash := some "h1",
          size := 4 }).2.report.files_transferred = 0 + 1 := by
  have h := c6_counter_update_discipline
    { copy_ok := fun _ => true, mkdir_ok := fun _ => true,
      remote_media := [], remote_fs0 := [] }
    { local_source_path := "/src", nextcloud_dest_path := "/dest",
      dry_run := false }
    { sync_id := some 1 }
    { path := "/src/a.jpg", hash := some "h1", size := 4 } "h1"
    rfl (by decide) rfl (by decide) (by decide) (by decide)
  have h1 := h.1
  rw [h1]
  decide

/-- C2 counterexample.  Two same-hash files `/src/a.jpg`, `/src/b.jpg`
into an empty destination: after the first transfer the registry maps
`"h1"` to the canonical `/dest/a.jpg`; processing the second file
classifies it a duplicate and renames it, but `add_remote_file_hash`
then *overwrites* the mapping with `/dest/b_DUP.jpg` — the registry no
longer points at the first-registered location, refuting the claim that
the canonical mapping is never overwritten by the later arrival. -/
theorem c2_canonical_mapping_overwritten :
    let env : Env := { copy_ok := fun _ => true, mkdir_ok := fun _ => true,
                       remote_media := [], remote_fs0 := [] }
    let cfg : Config := { local_source_path := "/src",
                          nextcloud_dest_path := "/dest", dry_run := false }
    let st : SyncState := { sync_id := some 1 }
    let fa : LocalFile := { path := "/src/a.jpg", hash := some "h1",
                            size := 4 }
    let fb : LocalFile := { path := "/src/b.jpg", hash := some "h1",
                            size := 4 }
    let st1 := (transfer_file env cfg st fa).2
    let st2 := (transfer_file env cfg st1 fb).2
    st1.checker.get_existing_duplicate_path "h1" = some "/dest/a.jpg" ∧
    st2.report.duplicates_found = 1 ∧
    st2.report.duplicates_renamed = 1 ∧
    st2.checker.get_existing_duplicate_path "h1" =
      some "/dest/b_DUP.jpg" ∧
    st2.checker.get_existing_duplicate_path "h1" ≠ some "/dest/a.jpg" := by
  decide

/-- C2, amended.  A later arrival whose hash is already registered is
always classified a duplicate; its destination is a renamed path chosen
to be free on the remote side, so the canonical *file* (which exists
remotely) is never overwritten and remains present; however the registry
*mapping* for the hash is rebound to the later arrival's renamed path
rather than staying at the first-registered location.  (The hash still
maps to exactly one path: the dict holds one binding per key.) -/

theorem c2_registry_rebinds_to_renamed_path (env : Env) (cfg : Config) (st : SyncState) (f : LocalFile)
    (h canonical : String) (j : Nat)
    (hdry : cfg.dry_run = false)
    (hp1 : st.checker.is_file_already_processed f.path none = false)
    (hhash : f.hash = some h) (hne : ¬ h = "")
    (hp2 : st.checker.is_file_already_processed f.path (some h) = false)
    (hcanon : dictLookup st.checker.remote_file_hashes h = some canonical)
    (hcanon_fs : canonical ∈ st.remote_fs)
    (hmkdir : env.mkdir_ok (pathParent (cfg.nextcloud_dest_path ++ "/" ++
      get_relative_path f.path cfg.local_source_path)) = true)
    (hcopy : env.copy_ok f.path = true)
    (hj1 : 1 ≤ j) (hjf : j ≤ 1 + (st.remote_fs.length + 1))
    (hfree : st.remote_fs.contains
      (mkDupCandidate (cfg.nextcloud_dest_path ++ "/" ++
        get_relative_path f.path cfg.local_source_path) j) = false)
    (hbusy : ∀ i, 1 ≤ i → i < j → st.remote_fs.contains
      (mkDupCandidate (cfg.nextcloud_dest_path ++ "/" ++
        get_relative_path f.path cfg.local_source_path) i) = true) :
    (transfer_file env cfg st f).1 = true ∧
    (transfer_file env cfg st f).2.report.duplicates_found =
      st.report.duplicates_found + 1 ∧
    (transfer_file env cfg st f).2.report.duplicates_renamed =
      st.report.duplicates_renamed + 1 ∧
    (transfer_file env cfg st f).2.checker.get_existing_duplicate_path h =
      some (mkDupCandidate (cfg.nextcloud_dest_path ++ "/" ++
        get_relative_path f.path cfg.local_source_path) j) ∧
    mkDupCandidate (cfg.nextcloud_dest_path ++ "/" ++
        get_relative_path f.path cfg.local_source_path) j ≠ canonical ∧
    canonical ∈ (transfer_file env cfg st f).2.remote_fs := by
  have hdup : st.checker.is_duplicate_in_remote h = true := by
    simp [DuplicateChecker.is_duplicate_in_remote, dictContains, hcanon]
  have hnc : mkDupCandidate (cfg.nextcloud_dest_path ++ "/" ++
      get_relative_path f.path cfg.local_source_path) j ≠ canonical := by
    intro he
    rw [he] at hfree
    simp [hcanon_fs] at hfree
  have hgen : generate_duplicate_name (fun p => st.remote_fs.contains p)
      (st.remote_fs.length + 1)
      (cfg.nextcloud_dest_path ++ "/" ++
        get_relative_path f.path cfg.local_source_path) false =
      mkDupCandidate (cfg.nextcloud_dest_path ++ "/" ++
        get_relative_path f.path cfg.local_source_path) j := by
    unfold generate_duplicate_name
    rw [if_neg Bool.false_ne_true]
    exact genDupGo_first_free _ _ _ 1 j hj1 (by omega) hfree hbusy
  refine ⟨?_, ?_, ?_, ?_, hnc, ?_⟩ <;>
  · simp only [transfer_file, hp1, hhash, hne, hp2, hdry,
      Bool.false_eq_true, if_false, execute_transfer,
      ensure_directory_as_www_data, transfer_as_www_data, hmkdir,
      hcopy, hdup, if_true, ite_true, ite_false, Bool.not_eq_true,
      logTransferIfSession]
    cases hsid : st.sync_id <;>
      simp [hsid, hgen, MediaSyncReport.add_duplicate,
        MediaSyncReport.add_renamed_duplicate,
        DuplicateChecker.get_existing_duplicate_path,
        DuplicateChecker.add_remote_file_hash, dictLookup_insert_self,
        hcanon_fs]
    all_goals simpa using hgen


/-- Witness for C2's amended theorem at a concrete duplicate arrival. -/
theorem c2_registry_rebinds_to_renamed_path_witness :
    (transfer_file
        { copy_ok := fun _ => true, mkdir_ok := fun _ => true,
          remote_media := [], remote_fs0 := [] }
        { local_source_path := "/src", nextcloud_dest_path := "/dest",
          dry_run := false }
        { checker := { remote_file_hashes := [("h1", "/dest/x.jpg")] },
          remote_fs := ["/dest/x.jpg"], sync_id := some 1 }
        { path := "/src/b.jpg", hash := some "h1", size := 4 }).1 =
      true := by
  have h := c2_registry_rebinds_to_renamed_path
    { copy_ok := fun _ => true, mkdir_ok := fun _ => true,
      remote_media := [], remote_fs0 := [] }
    { local_source_path := "/src", nextcloud_dest_path := "/dest",
      dry_run := false }
    { checker := { remote_file_hashes := [("h1", "/dest/x.jpg")] },
      remote_fs := ["/dest/x.jpg"], sync_id := some 1 }
    { path := "/src/b.jpg", hash := some "h1", size := 4 }
    "h1" "/dest/x.jpg" 1
    rfl (by decide) rfl (by decide) (by decide) (by decide)
    (by decide) (by decide) (by decide) (by omega) (by decide)
    (by decide) (by intro i hi1 hi2; omega)
  exact h.1

/-- C3 counterexample.  Store holding one `INTERRUPTED` session for the
pair `("/src", "/dest")`; starting a new run that accepts the resume
leaves *two* non-terminal (`RUNNING`/`INTERRUPTED`) sessions for the
pair — the resumed session is never closed and a fresh `RUNNING` row is
inserted — refuting the at-most-one invariant. -/
theorem c3_two_nonterminal_sessions :
    let cfg : Config := { local_source_path := "/src",
                          nextcloud_dest_path := "/dest",
                          dry_run := false }
    let db0 : Database :=
      { sync_reports :=
          [{ sid := 1, source_path := "/src", dest_path := "/dest",
             status := "INTERRUPTED" }],
        next_id := 2 }
    nonTerminalCount db0 "/src" "/dest" = 1 ∧
    nonTerminalCount (start_run cfg true db0).2.2.2 "/src" "/dest" = 2 := by
  decide

/-- C3, amended.  Starting any new run (resumed, resume-declined, or
simulated) inserts exactly one fresh `RUNNING` session and leaves every
previously non-terminal session of the pair non-terminal (a declined
resume merely re-marks the most recent one `INTERRUPTED`), so the number
of `RUNNING`-or-`INTERRUPTED` sessions for the pair always grows by
exactly one: the at-most-one-non-terminal-session invariant is not
enforced by the code.  (Session ids are unique, as SQLite's
`AUTOINCREMENT` guarantees.) -/

theorem c3_start_run_increments_nonterminal_count (cfg : Config) (user_accepts : Bool) (db0 : Database)
    (huniq : (db0.sync_reports.map SyncSession.sid).Nodup) :
    nonTerminalCount (start_run cfg user_accepts db0).2.2.2
        cfg.local_source_path cfg.nextcloud_dest_path =
      nonTerminalCount db0 cfg.local_source_path cfg.nextcloud_dest_path
        + 1 := by
  have hstart : ∀ (db : Database) (r : Option Nat),
      nonTerminalCount (db.start_sync_session cfg.local_source_path
          cfg.nextcloud_dest_path r).2 cfg.local_source_path
          cfg.nextcloud_dest_path =
        nonTerminalCount db cfg.local_source_path
          cfg.nextcloud_dest_path + 1 := by
    intro db r
    simp [nonTerminalCount, Database.start_sync_session, List.filter_append]
  have hmark : ∀ (db : Database) (i : Nat),
      (db.sync_reports.map SyncSession.sid).Nodup →
      db.find_incomplete_sync cfg.local_source_path
        cfg.nextcloud_dest_path = some i →
      nonTerminalCount (db.mark_sync_interrupted i)
          cfg.local_source_path cfg.nextcloud_dest_path =
        nonTerminalCount db cfg.local_source_path
          cfg.nextcloud_dest_path := by
    intro db i hn hfind
    unfold Database.find_incomplete_sync at hfind
    obtain ⟨g, hg, hgi⟩ : ∃ g, (db.sync_reports.filter (fun s =>
        s.source_path = cfg.local_source_path ∧
        s.dest_path = cfg.nextcloud_dest_path ∧
        (s.status = "RUNNING" ∨ s.status = "INTERRUPTED"))).getLast? =
          some g ∧ g.sid = i := by
      rcases hl : (db.sync_reports.filter (fun s =>
          s.source_path = cfg.local_source_path ∧
          s.dest_path = cfg.nextcloud_dest_path ∧
          (s.status = "RUNNING" ∨ s.status = "INTERRUPTED"))).getLast?
        with _ | g
      · rw [hl] at hfind
        exact Option.noConfusion hfind
      · rw [hl] at hfind
        refine ⟨g, hl, ?_⟩
        simpa using hfind
    have hgmem : g ∈ db.sync_reports.filter (fun s =>
        s.source_path = cfg.local_source_path ∧
        s.dest_path = cfg.nextcloud_dest_path ∧
        (s.status = "RUNNING" ∨ s.status = "INTERRUPTED")) := by
      have hmem : g ∈ (db.sync_reports.filter (fun s =>
          s.source_path = cfg.local_source_path ∧
          s.dest_path = cfg.nextcloud_dest_path ∧
          (s.status = "RUNNING" ∨ s.status = "INTERRUPTED"))).getLast? := by
        rw [hg]; rfl
      obtain ⟨hne, heq⟩ := List.mem_getLast?_eq_getLast hmem
      rw [heq]
      exact List.getLast_mem hne
    have hgl : g ∈ db.sync_reports := List.mem_of_mem_filter hgmem
    have hgp : (g.source_path = cfg.local_source_path ∧
        g.dest_path = cfg.nextcloud_dest_path ∧
        (g.status = "RUNNING" ∨ g.status = "INTERRUPTED")) := by
      have := List.of_mem_filter hgmem
      simpa using this
    unfold nonTerminalCount Database.mark_sync_interrupted
    rw [← List.countP_eq_length_filter, ← List.countP_eq_length_filter,
      List.countP_map]
    apply List.countP_congr
    intro t ht
    by_cases hti : t.sid = i
    · have : t = g := List.inj_on_of_nodup_map hn ht hgl (by rw [hti, hgi])
      subst this
      simp [Function.comp, hti, hgp.1, hgp.2.1, hgp.2.2]
    · simp [Function.comp, hti]
  unfold start_run
  by_cases hdry : cfg.dry_run = true
  · simp only [hdry, if_true, ite_true]
    exact hstart db0 none
  · simp only [Bool.not_eq_true] at hdry
    simp only [hdry, Bool.false_eq_true, if_false, ite_false]
    unfold check_for_resume
    rcases hfind : db0.find_incomplete_sync cfg.local_source_path
        cfg.nextcloud_dest_path with _ | i
    · simp only [hfind]
      exact hstart db0 none
    · by_cases hacc : user_accepts = true
      · simp only [hacc, if_true, ite_true]
        exact hstart db0 (some i)
      · simp only [Bool.not_eq_true] at hacc
        simp only [hacc, Bool.false_eq_true, if_false, ite_false]
        rw [hstart (db0.mark_sync_interrupted i) none]
        rw [hmark db0 i huniq hfind]


/-- Witness for C3's amended theorem: the counterexample store again. -/
theorem c3_start_run_increments_nonterminal_count_witness :
    nonTerminalCount (start_run
        { local_source_path := "/src", nextcloud_dest_path := "/dest",
          dry_run := false } true
        { sync_reports :=
            [{ sid := 1, source_path := "/src", dest_path := "/dest",
               status := "INTERRUPTED" }],
          next_id := 2 }).2.2.2 "/src" "/dest" =
      nonTerminalCount
        ({ sync_reports :=
             [{ sid := 1, source_path := "/src", dest_path := "/dest",
                status := "INTERRUPTED" }],
           next_id := 2 } : Database) "/src" "/dest" + 1 :=
  c3_start_run_increments_nonterminal_count
    { local_source_path := "/src", nextcloud_dest_path := "/dest",
      dry_run := false } true
    { sync_reports :=
        [{ sid := 1, source_path := "/src", dest_path := "/dest",
           status := "INTERRUPTED" }],
      next_id := 2 }
    (by decide)

set_option maxHeartbeats 1000000 in
/-- Every state the per-file pipeline passes through before its final
one leaves the `transferred_files` table and `self.sync_id` untouched:
the only write of a transfer row is the last action of the attempt. -/

theorem transfer_file_trace_db_invariant (env : Env) (cfg : Config) (st : SyncState) (f : LocalFile) :
    ∀ k, k + 1 < (transfer_file_trace env cfg st f).length →
      ((transfer_file_trace env cfg st f).getD k st).db.transferred_files =
        st.db.transferred_files ∧
      ((transfer_file_trace env cfg st f).getD k st).sync_id =
        st.sync_id := by
  intro k hk
  unfold transfer_file_trace at hk ⊢
  by_cases hp1 : st.checker.is_file_already_processed f.path none = true
  · simp only [hp1, if_true, ite_true] at hk ⊢
    rcases k with _ | _ | k <;> simp [List.getD]
  · simp only [Bool.not_eq_true] at hp1
    simp only [hp1, Bool.false_eq_true, if_false, ite_false] at hk ⊢
    match hh : f.hash with
    | none =>
        simp only [hh] at hk ⊢
        rcases k with _ | _ | _ | k <;>
          simp [List.getD, logErrorIfSession] <;>
          cases st.sync_id <;> simp [Database.log_error]
    | some h =>
        simp only [hh] at hk ⊢
        by_cases hne : h = ""
        · simp only [hne, if_pos rfl, ite_true] at hk ⊢
          rcases k with _ | _ | _ | k <;>
            simp [List.getD, logErrorIfSession] <;>
            cases st.sync_id <;> simp [Database.log_error]
        · simp only [hne, if_neg hne, ite_false] at hk ⊢
          by_cases hp2 : st.checker.is_file_already_processed f.path
              (some h) = true
          · simp only [hp2, if_true, ite_true] at hk ⊢
            rcases k with _ | _ | k <;> simp [List.getD]
          · simp only [Bool.not_eq_true] at hp2
            simp only [hp2, Bool.false_eq_true, if_false, ite_false]
              at hk ⊢
            by_cases hdry : cfg.dry_run = true
            · simp only [hdry, if_true, ite_true] at hk ⊢
              by_cases hdup : st.checker.is_duplicate_in_remote h = true
              · simp only [hdup, if_true, ite_true] at hk ⊢
                simp only [List.length_append, List.length_cons,
                  List.length_nil, List.cons_append, List.nil_append]
                  at hk ⊢
                rcases k with _ | _ | _ | _ | k
                · simp [List.getD]
                · simp [List.getD]
                · simp [List.getD]
                · simp [List.getD]
                · exfalso; omega
              · simp only [Bool.not_eq_true] at hdup
                simp only [hdup, Bool.false_eq_true, if_false, ite_false]
                  at hk ⊢
                simp only [List.length_append, List.length_cons,
                  List.length_nil, List.cons_append, List.nil_append]
                  at hk ⊢
                rcases k with _ | _ | _ | k
                · simp [List.getD]
                · simp [List.getD]
                · simp [List.getD]
                · exfalso; omega
            · simp only [Bool.not_eq_true] at hdry
              simp only [hdry, Bool.false_eq_true, if_false, ite_false]
                at hk ⊢
              by_cases hmk : env.mkdir_ok (pathParent
                  (cfg.nextcloud_dest_path ++ "/" ++
                    get_relative_path f.path cfg.local_source_path)) = true
              · simp only [hmk, not_true, if_false, ite_false,
                  Bool.not_true, Bool.false_eq_true] at hk ⊢
                by_cases hdup : st.checker.is_duplicate_in_remote h = true
                · by_cases hcopy : env.copy_ok f.path = true
                  · simp only [hdup, hcopy, if_true, ite_true, not_true,
                      Bool.not_true, Bool.false_eq_true, if_false,
                      ite_false, List.length_append, List.length_cons,
                      List.length_nil, List.cons_append, List.nil_append]
                      at hk ⊢
                    rcases k with _ | _ | _ | _ | _ | _ | _ | k
                    · simp [List.getD]
                    · simp [List.getD]
                    · simp [List.getD]
                    · simp [List.getD]
                    · simp [List.getD]
                    · simp [List.getD]
                    · exfalso; omega
                    · simp [List.getD]
                  · simp only [Bool.not_eq_true] at hcopy
                    simp only [hdup, hcopy, if_true, ite_true, not_false_iff,
                      Bool.not_false, Bool.false_eq_true, if_false,
                      ite_false, List.length_append, List.length_cons,
                      List.length_nil, List.cons_append, List.nil_append]
                      at hk ⊢
                    rcases k with _ | _ | _ | _ | _ | _ | k <;>
                      simp [List.getD]
                · simp only [Bool.not_eq_true] at hdup
                  by_cases hcopy : env.copy_ok f.path = true
                  · simp only [hdup, hcopy, if_true, ite_true, not_true,
                      Bool.not_true, Bool.false_eq_true, if_false,
                      ite_false, List.length_append, List.length_cons,
                      List.length_nil, List.cons_append, List.nil_append]
                      at hk ⊢
                    rcases k with _ | _ | _ | _ | _ | _ | k
                    · simp [List.getD]
                    · simp [List.getD]
                    · simp [List.getD]
                    · simp [List.getD]
                    · simp [List.getD]
                    · exfalso; omega
                    · simp [List.getD]
                  · simp only [Bool.not_eq_true] at hcopy
                    simp only [hdup, hcopy, if_true, ite_true, not_false_iff,
                      Bool.not_false, Bool.false_eq_true, if_false,
                      ite_false, List.length_append, List.length_cons,
                      List.length_nil, List.cons_append, List.nil_append]
                      at hk ⊢
                    rcases k with _ | _ | _ | _ | k <;> simp [List.getD]
              · simp only [Bool.not_eq_true] at hmk
                simp only [hmk, Bool.not_false, if_true, ite_true,
                  Bool.false_eq_true, not_false_iff] at hk ⊢
                rcases k with _ | _ | _ | k <;> simp [List.getD]


set_option maxHeartbeats 1000000 in
/-- The interruption trace is consistent with `transfer_file`: its last
state is exactly the state `transfer_file` returns. -/

theorem transfer_file_trace_getLastD (env : Env) (cfg : Config) (st : SyncState) (f : LocalFile) :
    (transfer_file_trace env cfg st f).getLastD st =
      (transfer_file env cfg st f).2 := by
  unfold transfer_file_trace transfer_file
  by_cases hp1 : st.checker.is_file_already_processed f.path none = true
  · simp [hp1]
  · simp only [Bool.not_eq_true] at hp1
    simp only [hp1, Bool.false_eq_true, if_false, ite_false]
    match hh : f.hash with
    | none => simp
    | some h =>
        by_cases hne : h = ""
        · simp [hne]
        · simp only [hne, if_neg hne, ite_false]
          by_cases hp2 : st.checker.is_file_already_processed f.path
              (some h) = true
          · simp [hp2]
          · simp only [Bool.not_eq_true] at hp2
            simp only [hp2, Bool.false_eq_true, if_false, ite_false]
            by_cases hdry : cfg.dry_run = true
            · simp only [hdry, if_true, ite_true, simulate_transfer,
                transfer_as_www_data]
              by_cases hdup : st.checker.is_duplicate_in_remote h = true
              · simp [hdup]
              · simp only [Bool.not_eq_true] at hdup
                simp [hdup]
            · simp only [Bool.not_eq_true] at hdry
              simp only [hdry, Bool.false_eq_true, if_false, ite_false,
                execute_transfer, ensure_directory_as_www_data,
                transfer_as_www_data]
              by_cases hmk : env.mkdir_ok (pathParent
                  (cfg.nextcloud_dest_path ++ "/" ++
                    get_relative_path f.path cfg.local_source_path)) = true
              · simp only [hmk, not_true, Bool.not_true,
                  Bool.false_eq_true, if_false, ite_false, if_true,
                  ite_true]
                by_cases hdup : st.checker.is_duplicate_in_remote h = true
                · by_cases hcopy : env.copy_ok f.path = true
                  · simp [hdup, hcopy]
                  · simp only [Bool.not_eq_true] at hcopy
                    simp [hdup, hcopy]
                · simp only [Bool.not_eq_true] at hdup
                  by_cases hcopy : env.copy_ok f.path = true
                  · simp [hdup, hcopy]
                  · simp only [Bool.not_eq_true] at hcopy
                    simp [hdup, hcopy]
              · simp only [Bool.not_eq_true] at hmk
                simp [hmk]


/-- C7.  If the interruption signal arrives at any point while the file
is in flight (at any state of the pipeline's trace before the final
one), the handler persists an `INTERRUPTED` TransferRecord for the file
before propagating, and the store holds no `COMPLETED` record for this
file in this session — the in-flight file is never left `COMPLETED`. -/
theorem c7_interrupted_file_never_completed (env : Env) (cfg : Config)
    (st : SyncState) (f : LocalFile) (sid : Nat)
    (hsid : st.sync_id = some sid)
    (hclean : ∀ r ∈ st.db.transferred_files,
      r.sync_id = sid → r.source_file = f.path →
        r.processing_status ≠ "COMPLETED")
    (k : Nat) (hk : k + 1 < (transfer_file_trace env cfg st f).length)
    (hv : String) :
    (∃ r ∈ (interrupt_transfer
        ((transfer_file_trace env cfg st f).getD k st)
        f hv).db.transferred_files,
      r.sync_id = sid ∧ r.source_file = f.path ∧
        r.processing_status = "INTERRUPTED") ∧
    (∀ r ∈ (interrupt_transfer
        ((transfer_file_trace env cfg st f).getD k st)
        f hv).db.transferred_files,
      r.sync_id = sid → r.source_file = f.path →
        r.processing_status ≠ "COMPLETED") := by
  obtain ⟨hdb, hsy⟩ := transfer_file_trace_db_invariant env cfg st f k hk
  rw [hsid] at hsy
  unfold interrupt_transfer logTransferIfSession
  rw [hsy]
  simp only [Database.log_transferred_file]
  constructor
  · refine ⟨⟨sid, f.path, "", hv, 0, false, "INTERRUPTED"⟩, ?_, rfl,
      rfl, rfl⟩
    simp [hdb]
  · intro r hr h1 h2
    simp only [hdb, List.mem_append, List.mem_singleton] at hr
    rcases hr with hr | hr
    · exact hclean r hr h1 h2
    · subst hr
      simp

/-- Witness for C7: an interrupt two steps into a real transfer of
`/src/a.jpg` (right after the remote copy) leaves an `INTERRUPTED`
record and no `COMPLETED` record. -/
theorem c7_interrupted_file_never_completed_witness :
    let env : Env := { copy_ok := fun _ => true, mkdir_ok := fun _ => true,
                       remote_media := [], remote_fs0 := [] }
    let cfg : Config := { local_source_path := "/src",
                          nextcloud_dest_path := "/dest",
                          dry_run := false }
    let st : SyncState := { sync_id := some 1 }
    let f : LocalFile := { path := "/src/a.jpg", hash := some "h1",
                           size := 4 }
    (∃ r ∈ (interrupt_transfer
        ((transfer_file_trace env cfg st f).getD 2 st)
        f "h1").db.transferred_files,
      r.sync_id = 1 ∧ r.source_file = "/src/a.jpg" ∧
        r.processing_status = "INTERRUPTED") ∧
    (∀ r ∈ (interrupt_transfer
        ((transfer_file_trace env cfg st f).getD 2 st)
        f "h1").db.transferred_files,
      r.sync_id = 1 → r.source_file = "/src/a.jpg" →
        r.processing_status ≠ "COMPLETED") := by
  have h := c7_interrupted_file_never_completed
    { copy_ok := fun _ => true, mkdir_ok := fun _ => true,
      remote_media := [], remote_fs0 := [] }
    { local_source_path := "/src", nextcloud_dest_path := "/dest",
      dry_run := false }
    { sync_id := some 1 }
    { path := "/src/a.jpg", hash := some "h1", size := 4 }
    1 rfl (by simp) 2 (by decide) "h1"
  exact h

/-- C10.  Re-running on an unchanged source with resume enabled: the
first run completes (terminal status `COMPLETED`), so
`find_incomplete_sync` finds nothing to resume; the second run's
path-based check misses (no resume set) and its hash-based check misses
because of the values-vs-keys bug (C1), so the rescanned remote copy
makes every file a *duplicate*: the file is re-copied under a `_DUP`
name instead of being skipped.  The second run reports 1 duplicate,
0 already-processed — the claim (100% skipped, zero duplicates) fails:
a code bug downstream of C1 (the monolithic draft's hash check would
have skipped the file). -/
theorem c10_second_run_duplicates_instead_of_skipping :
    let cfg : Config := { local_source_path := "/src",
                          nextcloud_dest_path := "/dest",
                          dry_run := false }
    let f1 : LocalFile := { path := "/src/a.jpg", hash := some "h1",
                            size := 4 }
    let env1 : Env := { copy_ok := fun _ => true, mkdir_ok := fun _ => true,
                        remote_media := [], remote_fs0 := [] }
    let run1 := sync_files env1 cfg true [f1] {}
    let env2 : Env := { copy_ok := fun _ => true, mkdir_ok := fun _ => true,
                        remote_media := [("/dest/a.jpg", "h1")],
                        remote_fs0 := ["/dest/a.jpg"] }
    let run2 := sync_files env2 cfg true [f1] run1.2.db
    run1.2.remote_fs = ["/dest/a.jpg"] ∧
    run1.2.report.files_transferred = 1 ∧
    (run1.2.db.sync_reports.map (fun s => s.status)) = ["COMPLETED"] ∧
    run2.2.report.already_processed = 0 ∧
    run2.2.report.duplicates_found = 1 ∧
    run2.2.report.duplicates_renamed = 1 ∧
    run2.2.report.files_transferred = 0 ∧
    run2.2.report.errors = [] ∧
    run2.2.remote_fs = ["/dest/a.jpg", "/dest/a_DUP.jpg"] := by
  decide

/-- C8.  For a resumed session on a `(source, dest)` pair, the set of
paths treated as already processed is exactly the union of the source
paths of `COMPLETED` TransferRecords belonging to sessions on that pair
and the source paths of `COMPLETED` records of the session being
resumed; and a pipeline state carrying that resume set returns
`AlreadyProcessed` for every file in it, mutating nothing but the
already-processed counter (the file is not transferred again). -/

theorem c8_resume_set_exactly_completed_union (cfg : Config) (db : Database) (i : Nat)
    (hfind : db.find_incomplete_sync cfg.local_source_path
      cfg.nextcloud_dest_path = some i) :
    (check_for_resume cfg true {} db).1 = true ∧
    (check_for_resume cfg true {} db).2.1 = some i ∧
    (∀ p, (check_for_resume cfg true {} db).2.2.1.processed_files.contains
        p = true ↔
      ((∃ rec ∈ db.transferred_files,
          rec.processing_status = "COMPLETED" ∧ rec.source_file = p ∧
          (∃ s ∈ db.sync_reports, s.sid = rec.sync_id ∧
            s.source_path = cfg.local_source_path ∧
            s.dest_path = cfg.nextcloud_dest_path)) ∨
       (∃ rec ∈ db.transferred_files,
          rec.processing_status = "COMPLETED" ∧ rec.source_file = p ∧
          rec.sync_id = i))) ∧
    (∀ (env : Env) (st : SyncState) (f : LocalFile),
      st.checker = (check_for_resume cfg true {} db).2.2.1 →
      st.checker.processed_files.contains f.path = true →
      transfer_file env cfg st f =
        (true, { st with report := st.report.add_already_processed })) := by
  unfold check_for_resume
  rw [hfind]
  refine ⟨rfl, rfl, ?_, ?_⟩
  case refine_2 =>
    intro env st f hchk hcont
    have hproc : st.checker.is_file_already_processed f.path none = true := by
      unfold DuplicateChecker.is_file_already_processed
      simp only [hcont, if_true, ite_true]
    unfold transfer_file
    rw [hproc]
    simp
  intro p
  simp only [DuplicateChecker.load_interrupted_files,
    DuplicateChecker.load_processed_files,
    Database.get_all_previous_processed_files,
    Database.get_processed_files]
  simp only [if_pos trivial, List.elem_iff, List.mem_append,
    List.mem_filter, List.mem_dedup, List.mem_map, List.any_eq_true,
    decide_eq_true_eq, Bool.and_eq_true, List.isEmpty_cons,
    List.mem_singleton, Bool.false_eq_true, if_false, ite_false]
  constructor
  · rintro (⟨a, ⟨rec, ⟨hm, ⟨honp, hC⟩, hne⟩, rfl⟩, hp1⟩ |
      ⟨⟨rec, ⟨hm, hsy, hC⟩, hsrc⟩, _⟩)
    · exact Or.inl ⟨rec, hm, hC, hp1, honp⟩
    · exact Or.inr ⟨rec, hm, hC, hsrc, hsy⟩
  · intro h
    by_cases hA : (∃ a, (∃ rec, (rec ∈ db.transferred_files ∧
        ((∃ x ∈ db.sync_reports, x.sid = rec.sync_id ∧
          x.source_path = cfg.local_source_path ∧
          x.dest_path = cfg.nextcloud_dest_path) ∧
          rec.processing_status = "COMPLETED") ∧ rec.sync_id ≠ i) ∧
        (rec.source_file, rec.file_hash) = a) ∧ a.1 = p)
    · exact Or.inl hA
    · refine Or.inr ⟨?_, hA⟩
      rcases h with ⟨rec, hm, hC, hsrc, honp⟩ | ⟨rec, hm, hC, hsrc, hsy⟩
      · by_cases hi : rec.sync_id = i
        · exact ⟨rec, ⟨hm, hi, hC⟩, hsrc⟩
        · exact absurd ⟨(rec.source_file, rec.file_hash),
            ⟨rec, ⟨hm, ⟨honp, hC⟩, hi⟩, rfl⟩, hsrc⟩ hA
      · exact ⟨rec, ⟨hm, hsy, hC⟩, hsrc⟩


/-- Witness for C8 at a concrete store holding one interrupted session
with one `COMPLETED` record. -/
theorem c8_resume_set_exactly_completed_union_witness :
    (check_for_resume
        { local_source_path := "/src", nextcloud_dest_path := "/dest",
          dry_run := false } true {}
        { sync_reports :=
            [{ sid := 1, source_path := "/src", dest_path := "/dest",
               status := "INTERRUPTED" }],
          transferred_files :=
            [{ sync_id := 1, source_file := "/src/a.jpg",
               dest_file := "/dest/a.jpg", file_hash := "h1",
               file_size := 4, is_duplicate := false,
               processing_status := "COMPLETED" }],
          next_id := 2 }).1 = true := by
  have h := c8_resume_set_exactly_completed_union
    { local_source_path := "/src", nextcloud_dest_path := "/dest",
      dry_run := false }
    { sync_reports :=
        [{ sid := 1, source_path := "/src", dest_path := "/dest",
           status := "INTERRUPTED" }],
      transferred_files :=
        [{ sync_id := 1, source_file := "/src/a.jpg",
           dest_file := "/dest/a.jpg", file_hash := "h1",
           file_size := 4, is_duplicate := false,
           processing_status := "COMPLETED" }],
      next_id := 2 } 1 (by decide)
  exact h.1

theorem slash_mem_append (a b : String) :
    '/' ∈ ((a ++ "/" ++ b) : String).data := by
  simp [String.data_append]

theorem pathParentJoin_slash {s : String} (n : String)
    (hs : '/' ∈ s.data) : '/' ∈ (pathParentJoin s n).data := by
  unfold pathParentJoin
  rcases hx : splitLast '/' s.data with _ | pr
  · exact absurd hs (splitLast_none_not_mem hx)
  · exact slash_mem_append ⟨pr.1⟩ n

theorem mkDupCandidate_slash {p : String} (c : Nat)
    (hp : '/' ∈ p.data) : '/' ∈ (mkDupCandidate p c).data := by
  unfold mkDupCandidate
  exact pathParentJoin_slash _ hp

theorem genDupGo_slash (g : String → Bool) {p : String}
    (hp : '/' ∈ p.data) :
    ∀ (fuel c : Nat), '/' ∈ (genDupGo g p c fuel).data := by
  intro fuel
  induction fuel with
  | zero => intro c; exact mkDupCandidate_slash c hp
  | succ fuel ih =>
      intro c
      show '/' ∈ (genDupGo g p c (fuel + 1)).data
      rw [genDupGo]
      by_cases hc : g (mkDupCandidate p c) = true
      · rw [hc]
        simpa using ih (c + 1)
      · simp only [Bool.not_eq_true] at hc
        rw [hc]
        simpa using mkDupCandidate_slash c hp

theorem values_contains_false {h : String} {vals : List String}
    (hh : '/' ∉ h.data) (hv : ∀ v ∈ vals, '/' ∈ v.data) :
    vals.contains h = false := by
  by_contra hc
  simp only [Bool.not_eq_false] at hc
  have := List.elem_iff.mp hc
  exact hh (hv h this)

theorem dictContains_congr {a b : List (String × String)}
    (hk : a.map Prod.fst = b.map Prod.fst) (k : String) :
    dictContains a k = dictContains b k := by
  rw [dictContains_eq_keys, dictContains_eq_keys, hk]

theorem logErrorIfSession_report (st : SyncState) (m : String)
    (p : Option String) : (logErrorIfSession st m p).report = st.report := by
  cases h : st.sync_id <;> simp [logErrorIfSession, h]

theorem logErrorIfSession_checker (st : SyncState) (m : String)
    (p : Option String) :
    (logErrorIfSession st m p).checker = st.checker := by
  cases h : st.sync_id <;> simp [logErrorIfSession, h]

theorem logTransferIfSession_report (st : SyncState) (a b c : String)
    (n : Nat) (d : Bool) (s : String) :
    (logTransferIfSession st a b c n d s).report = st.report := by
  cases h : st.sync_id <;> simp [logTransferIfSession, h]

theorem logTransferIfSession_checker (st : SyncState) (a b c : String)
    (n : Nat) (d : Bool) (s : String) :
    (logTransferIfSession st a b c n d s).checker = st.checker := by
  cases h : st.sync_id <;> simp [logTransferIfSession, h]

theorem already_processed_none_eq (dc : DuplicateChecker) (p : String) :
    dc.is_file_already_processed p none = dc.processed_files.contains p := by
  unfold DuplicateChecker.is_file_already_processed
  by_cases h : dc.processed_files.contains p = true <;> simp [h]

theorem already_processed_some_eq (dc : DuplicateChecker) (p h : String)
    (hne : h ≠ "") :
    dc.is_file_already_processed p (some h) =
      (dc.processed_files.contains p ||
        (dictValues dc.remote_file_hashes).contains h) := by
  unfold DuplicateChecker.is_file_already_processed
  by_cases hc : dc.processed_files.contains p = true <;> simp [hc, hne]

set_option maxHeartbeats 1600000 in
/-- One step of the dry/real lockstep: given equal reports, equal
processed sets, pointwise-equal registry keys, and all registry values
containing a slash (true of every destination path), processing one file
whose hash contains no slash preserves all of it — provided the real
transport always succeeds. -/

theorem transfer_file_dry_real_step (env : Env) (cfgR : Config)
    (hR : cfgR.dry_run = false)
    (hmk : ∀ d, env.mkdir_ok d = true) (hcp : ∀ p, env.copy_ok p = true)
    (stD stR : SyncState) (f : LocalFile)
    (hreport : stD.report = stR.report)
    (hproc : stD.checker.processed_files = stR.checker.processed_files)
    (hkeys : stD.checker.remote_file_hashes.map Prod.fst =
      stR.checker.remote_file_hashes.map Prod.fst)
    (hvd : ∀ v ∈ dictValues stD.checker.remote_file_hashes, '/' ∈ v.data)
    (hvr : ∀ v ∈ dictValues stR.checker.remote_file_hashes, '/' ∈ v.data)
    (hslash : ∀ h, f.hash = some h → '/' ∉ h.data) :
    (transfer_file env { cfgR with dry_run := true } stD f).2.report =
      (transfer_file env cfgR stR f).2.report ∧
    (transfer_file env { cfgR with dry_run := true } stD
        f).2.checker.processed_files =
      (transfer_file env cfgR stR f).2.checker.processed_files ∧
    (transfer_file env { cfgR with dry_run := true } stD
        f).2.checker.remote_file_hashes.map Prod.fst =
      (transfer_file env cfgR stR
        f).2.checker.remote_file_hashes.map Prod.fst ∧
    (∀ v ∈ dictValues (transfer_file env { cfgR with dry_run := true } stD
        f).2.checker.remote_file_hashes, '/' ∈ v.data) ∧
    (∀ v ∈ dictValues (transfer_file env cfgR stR
        f).2.checker.remote_file_hashes, '/' ∈ v.data) := by
  by_cases hp1 : stR.checker.processed_files.contains f.path = true
  · have hp1D : stD.checker.is_file_already_processed f.path none = true := by
      rw [already_processed_none_eq, hproc, hp1]
    have hp1R : stR.checker.is_file_already_processed f.path none = true := by
      rw [already_processed_none_eq, hp1]
    simp only [transfer_file, hp1D, hp1R, if_true, ite_true]
    exact ⟨by simp [hreport], hproc, hkeys, hvd, hvr⟩
  · simp only [Bool.not_eq_true] at hp1
    have hp1D : stD.checker.is_file_already_processed f.path none = false := by
      rw [already_processed_none_eq, hproc, hp1]
    have hp1R : stR.checker.is_file_already_processed f.path none = false := by
      rw [already_processed_none_eq, hp1]
    simp only [transfer_file, hp1D, hp1R, Bool.false_eq_true, if_false,
      ite_false]
    match hh : f.hash with
    | none =>
        refine ⟨?_, ?_, ?_, ?_, ?_⟩
        · simp [logErrorIfSession_report, hreport]
        · simp [logErrorIfSession_checker, hproc]
        · simp [logErrorIfSession_checker, hkeys]
        · simpa [logErrorIfSession_checker] using hvd
        · simpa [logErrorIfSession_checker] using hvr
    | some h =>
        by_cases hne : h = ""
        · subst hne
          simp only [if_pos rfl, ite_true]
          refine ⟨?_, ?_, ?_, ?_, ?_⟩
          · simp [logErrorIfSession_report, hreport]
          · simp [logErrorIfSession_checker, hproc]
          · simp [logErrorIfSession_checker, hkeys]
          · simpa [logErrorIfSession_checker] using hvd
          · simpa [logErrorIfSession_checker] using hvr
        · have hs : '/' ∉ h.data := hslash h hh
          have hp2D : stD.checker.is_file_already_processed f.path
              (some h) = false := by
            rw [already_processed_some_eq _ _ _ hne, hproc, hp1]
            simp only [Bool.false_or]
            exact values_contains_false hs hvd
          have hp2R : stR.checker.is_file_already_processed f.path
              (some h) = false := by
            rw [already_processed_some_eq _ _ _ hne, hp1]
            simp only [Bool.false_or]
            exact values_contains_false hs hvr
          simp only [hne, if_neg hne, ite_false, hp2D, hp2R,
            Bool.false_eq_true, if_false]
          have hdupEq : stD.checker.is_duplicate_in_remote h =
              stR.checker.is_duplicate_in_remote h := by
            unfold DuplicateChecker.is_duplicate_in_remote
            exact dictContains_congr hkeys h
          have hdest : '/' ∈ ((cfgR.nextcloud_dest_path ++ "/" ++
              get_relative_path f.path cfgR.local_source_path) :
                String).data :=
            slash_mem_append _ _
          by_cases hdup : stR.checker.is_duplicate_in_remote h = true
          · have hdupD : stD.checker.is_duplicate_in_remote h = true :=
              hdupEq.trans hdup
            simp only [simulate_transfer, execute_transfer,
              ensure_directory_as_www_data, transfer_as_www_data, hmk, hcp,
              hdup, hdupD, hR, if_true, ite_true, Bool.false_eq_true,
              if_false, ite_false, not_true, Bool.not_true,
              generate_duplicate_name, Bool.true_eq_false, not_false_iff]
            refine ⟨?_, ?_, ?_, ?_, ?_⟩
            · simp [logTransferIfSession_report, hreport]
            · simp [logTransferIfSession_checker,
                DuplicateChecker.add_remote_file_hash, hproc]
            · simp only [logTransferIfSession_checker]
              simp only [DuplicateChecker.add_remote_file_hash]
              exact dictKeys_insert_congr hkeys h _ _
            · simp only [logTransferIfSession_checker]
              simp only [DuplicateChecker.add_remote_file_hash]
              intro v hv
              rcases dictValues_insert_subset v hv with rfl | hv2
              · exact hdest
              · exact hvd v hv2
            · simp only [logTransferIfSession_checker]
              simp only [DuplicateChecker.add_remote_file_hash]
              intro v hv
              rcases dictValues_insert_subset v hv with rfl | hv2
              · exact genDupGo_slash _ hdest _ _
              · exact hvr v hv2
          · have hdupD : stD.checker.is_duplicate_in_remote h = false := by
              simp only [Bool.not_eq_true] at hdup
              exact hdupEq.trans hdup
            simp only [Bool.not_eq_true] at hdup
            simp only [simulate_transfer, execute_transfer,
              ensure_directory_as_www_data, transfer_as_www_data, hmk, hcp,
              hdup, hdupD, hR, if_true, ite_true, Bool.false_eq_true,
              if_false, ite_false, not_true, Bool.not_true,
              Bool.true_eq_false, not_false_iff]
            refine ⟨?_, ?_, ?_, ?_, ?_⟩
            · simp [logTransferIfSession_report, hreport]
            · simp [logTransferIfSession_checker,
                DuplicateChecker.add_remote_file_hash, hproc]
            · simp only [logTransferIfSession_checker]
              simp only [DuplicateChecker.add_remote_file_hash]
              exact dictKeys_insert_congr hkeys h _ _
            · simp only [logTransferIfSession_checker]
              simp only [DuplicateChecker.add_remote_file_hash]
              intro v hv
              rcases dictValues_insert_subset v hv with rfl | hv2
              · exact hdest
              · exact hvd v hv2
            · simp only [logTransferIfSession_checker]
              simp only [DuplicateChecker.add_remote_file_hash]
              intro v hv
              rcases dictValues_insert_subset v hv with rfl | hv2
              · exact hdest
              · exact hvr v hv2


theorem logErrorIfSession_ops (st : SyncState) (m : String)
    (p : Option String) : (logErrorIfSession st m p).ops = st.ops := by
  cases h : st.sync_id <;> simp [logErrorIfSession, h]

theorem logTransferIfSession_ops (st : SyncState) (a b c : String)
    (n : Nat) (d : Bool) (s : String) :
    (logTransferIfSession st a b c n d s).ops = st.ops := by
  cases h : st.sync_id <;> simp [logTransferIfSession, h]

theorem transfer_file_dry_ops (env : Env) (cfg : Config) (st : SyncState)
    (f : LocalFile) (hdry : cfg.dry_run = true) :
    (transfer_file env cfg st f).2.ops = st.ops := by
  unfold transfer_file
  by_cases hp1 : st.checker.is_file_already_processed f.path none = true
  · simp [hp1]
  · simp only [Bool.not_eq_true] at hp1
    simp only [hp1, Bool.false_eq_true, if_false, ite_false]
    match hh : f.hash with
    | none => simp [logErrorIfSession_ops]
    | some h =>
        by_cases hne : h = ""
        · simp [hne, logErrorIfSession_ops]
        · simp only [hne, if_neg hne, ite_false]
          by_cases hp2 : st.checker.is_file_already_processed f.path
              (some h) = true
          · simp [hp2]
          · simp only [Bool.not_eq_true] at hp2
            simp only [hp2, Bool.false_eq_true, if_false, ite_false, hdry,
              if_true, ite_true, simulate_transfer, transfer_as_www_data]
            by_cases hdup : st.checker.is_duplicate_in_remote h = true <;>
              simp [hdup, logTransferIfSession_ops]

theorem process_files_dry_ops (env : Env) (cfg : Config)
    (hdry : cfg.dry_run = true) :
    ∀ (files : List LocalFile) (st : SyncState),
      (process_files env cfg st files).ops = st.ops := by
  intro files
  induction files with
  | nil => intro st; simp [process_files]
  | cons f fs ih =>
      intro st
      show (process_files env cfg (transfer_file env cfg st f).2 fs).ops =
        st.ops
      rw [ih, transfer_file_dry_ops env cfg st f hdry]

theorem sync_files_dry_ops (env : Env) (cfg : Config) (u : Bool)
    (files : List LocalFile) (db0 : Database)
    (hdry : cfg.dry_run = true) :
    (sync_files env cfg u files db0).2.ops = [] := by
  unfold sync_files scan_remote_files
  simp only [hdry, if_true, ite_true]
  by_cases he : files.isEmpty = true
  · simp [he]
  · simp only [Bool.not_eq_true] at he
    simp only [he, Bool.false_eq_true, if_false, ite_false]
    rw [process_files_dry_ops env cfg hdry]
    split <;> rfl

theorem process_files_dry_real (env : Env) (cfgR : Config)
    (hR : cfgR.dry_run = false)
    (hmk : ∀ d, env.mkdir_ok d = true) (hcp : ∀ p, env.copy_ok p = true) :
    ∀ (files : List LocalFile),
      (∀ f ∈ files, ∀ h, f.hash = some h → '/' ∉ h.data) →
      ∀ (stD stR : SyncState),
      stD.report = stR.report →
      stD.checker.processed_files = stR.checker.processed_files →
      stD.checker.remote_file_hashes.map Prod.fst =
        stR.checker.remote_file_hashes.map Prod.fst →
      (∀ v ∈ dictValues stD.checker.remote_file_hashes, '/' ∈ v.data) →
      (∀ v ∈ dictValues stR.checker.remote_file_hashes, '/' ∈ v.data) →
      (process_files env { cfgR with dry_run := true } stD files).report =
        (process_files env cfgR stR files).report := by
  intro files
  induction files with
  | nil => intro _ stD stR h1 _ _ _ _; simpa [process_files] using h1
  | cons f fs ih =>
      intro hslash stD stR h1 h2 h3 h4 h5
      show (process_files env { cfgR with dry_run := true }
          (transfer_file env { cfgR with dry_run := true } stD f).2
          fs).report =
        (process_files env cfgR (transfer_file env cfgR stR f).2 fs).report
      obtain ⟨g1, g2, g3, g4, g5⟩ := transfer_file_dry_real_step env cfgR
        hR hmk hcp stD stR f h1 h2 h3 h4 h5
        (fun h hh => hslash f (List.mem_cons_self f fs) h hh)
      exact ih (fun g hg h hh => hslash g (List.mem_cons_of_mem f hg) h hh)
        _ _ g1 g2 g3 g4 g5

theorem sync_files_dry_real_reports (env : Env) (cfgR : Config)
    (u u' : Bool) (files : List LocalFile) (db0 : Database)
    (hR : cfgR.dry_run = false)
    (hmedia : env.remote_media = [])
    (hmk : ∀ d, env.mkdir_ok d = true) (hcp : ∀ p, env.copy_ok p = true)
    (hfind : db0.find_incomplete_sync cfgR.local_source_path
      cfgR.nextcloud_dest_path = none)
    (hslash : ∀ f ∈ files, ∀ h, f.hash = some h → '/' ∉ h.data) :
    (sync_files env { cfgR with dry_run := true } u files db0).2.report =
      (sync_files env cfgR u' files db0).2.report := by
  unfold sync_files start_run check_for_resume scan_remote_files
  rw [hfind]
  simp only [hR, hmedia, if_true, ite_true, Bool.false_eq_true, if_false,
    ite_false, not_false_iff, List.foldl_nil]
  by_cases he : files.isEmpty = true
  · simp [he]
  · simp only [Bool.not_eq_true] at he
    simp only [he, Bool.false_eq_true, if_false, ite_false]
    apply process_files_dry_real env cfgR hR hmk hcp files hslash <;>
      simp [dictValues]


/-- C4 counterexample.  Destination already holds `/dest/x.jpg` with
hash `h1` and the source has a file with the same hash: the simulated
run's scan registers *nothing* (the claim says it registers every
existing remote media hash), and the simulated counts (1 transferred,
0 duplicates) differ from the real run's (0 transferred, 1 duplicate,
1 renamed). -/
theorem c4_dry_scan_skipped_and_counts_differ :
    let cfgR : Config := { local_source_path := "/src",
                           nextcloud_dest_path := "/dest",
                           dry_run := false }
    let cfgD : Config := { cfgR with dry_run := true }
    let env0 : Env := { copy_ok := fun _ => true, mkdir_ok := fun _ => true,
                        remote_media := [("/dest/x.jpg", "h1")],
                        remote_fs0 := ["/dest/x.jpg"] }
    let f1 : LocalFile := { path := "/src/a.jpg", hash := some "h1",
                            size := 4 }
    (scan_remote_files env0 cfgD
        { sync_id := some 1 }).checker.remote_file_hashes = [] ∧
    (scan_remote_files env0 cfgR
        { sync_id := some 1 }).checker.remote_file_hashes =
      [("h1", "/dest/x.jpg")] ∧
    (sync_files env0 cfgD true [f1] {}).2.report.files_transferred = 1 ∧
    (sync_files env0 cfgD true [f1] {}).2.report.duplicates_found = 0 ∧
    (sync_files env0 cfgR true [f1] {}).2.report.files_transferred = 0 ∧
    (sync_files env0 cfgR true [f1] {}).2.report.duplicates_found = 1 ∧
    (sync_files env0 cfgR true [f1] {}).2.report.duplicates_renamed =
      1 := by
  decide

/-- C4, amended.  A simulated run never issues the transport's copy
operation nor any real directory creation (its remote-operation trace is
empty, for every input), and its destination scan registers nothing —
it does *not* perform the full remote scan the claim describes.
Consequently its transferred/duplicate/renamed counts agree with an
equivalent real run's only on inputs where the scan would register
nothing: with an empty remote destination, a fully successful transport,
no resumable session, and content hashes that are not path-like (no
slash), the two runs produce identical reports. -/
theorem c4_simulated_run_no_ops_and_conditional_equivalence (env : Env)
    (cfgR : Config) (u u' : Bool) (files : List LocalFile)
    (db0 : Database) (hR : cfgR.dry_run = false)
    (hmedia : env.remote_media = [])
    (hmk : ∀ d, env.mkdir_ok d = true) (hcp : ∀ p, env.copy_ok p = true)
    (hfind : db0.find_incomplete_sync cfgR.local_source_path
      cfgR.nextcloud_dest_path = none)
    (hslash : ∀ f ∈ files, ∀ h, f.hash = some h → '/' ∉ h.data) :
    (∀ (envA : Env) (u0 : Bool) (files0 : List LocalFile)
        (dbA : Database),
      (sync_files envA { cfgR with dry_run := true } u0 files0
        dbA).2.ops = []) ∧
    (∀ (envA : Env) (st : SyncState),
      scan_remote_files envA { cfgR with dry_run := true } st = st) ∧
    (sync_files env { cfgR with dry_run := true } u files db0).2.report =
      (sync_files env cfgR u' files db0).2.report := by
  refine ⟨?_, ?_, ?_⟩
  · intro envA u0 files0 dbA
    exact sync_files_dry_ops envA _ u0 files0 dbA rfl
  · intro envA st
    simp [scan_remote_files]
  · exact sync_files_dry_real_reports env cfgR u u' files db0 hR hmedia
      hmk hcp hfind hslash

/-- Witness for C4's amended theorem: one source file, empty
destination — the dry and real reports coincide. -/
theorem c4_simulated_run_witness :
    (sync_files
        { copy_ok := fun _ => true, mkdir_ok := fun _ => true,
          remote_media := [], remote_fs0 := [] }
        { local_source_path := "/src", nextcloud_dest_path := "/dest",
          dry_run := true }
        true [{ path := "/src/a.jpg", hash := some "h1", size := 4 }]
        {}).2.report =
      (sync_files
        { copy_ok := fun _ => true, mkdir_ok := fun _ => true,
          remote_media := [], remote_fs0 := [] }
        { local_source_path := "/src", nextcloud_dest_path := "/dest",
          dry_run := false }
        true [{ path := "/src/a.jpg", hash := some "h1", size := 4 }]
        {}).2.report := by
  have h := c4_simulated_run_no_ops_and_conditional_equivalence
    { copy_ok := fun _ => true, mkdir_ok := fun _ => true,
      remote_media := [], remote_fs0 := [] }
    { local_source_path := "/src", nextcloud_dest_path := "/dest",
      dry_run := false }
    true true [{ path := "/src/a.jpg", hash := some "h1", size := 4 }] {}
    rfl rfl (fun _ => rfl) (fun _ => rfl) (by decide)
    (by
      intro f hf h hh
      have hf1 : f = ⟨"/src/a.jpg", some "h1", 4⟩ := by simpa using hf
      subst hf1
      injection hh with h2
      subst h2
      decide)
  exact h.2.2

end SyncFiles
